import Mathlib

/-!
Verification development for the metrics-collection worker of the
System_Spec_Analyzer repository (src/system_spec_analyzer.py).

The Python worker `SystemInfoWorker` is shallowly embedded here:

* Every OS-level query the worker performs (psutil / platform / subprocess
  calls) is a slot of an explicit `Env` record.  A slot of type
  `Except Unit A` models a call that either returns a value of type `A`
  or raises an exception; `Except PyErr A` additionally distinguishes
  `PermissionError`/`OSError` (caught by the narrow per-volume handler in
  the storage step) from every other exception class.
* The snapshot dictionary built by `gather_system_info` is the record
  `Info`.  A field of type `Option A` is `none` when the dictionary key is
  absent and `some v` when the key is present with value `v`; keys whose
  value may itself be Python `None` get type `Option (Option A)`, with
  `some none` meaning "key present, value None".
* Python floats are idealised as rationals and Python byte counters as
  rationals/naturals; `platform.system()` is treated as an infallible
  cached string (it reads a cached uname); the calendar rendering of
  `datetime.fromtimestamp(...).strftime` is abstracted by the injective
  encoding `formatTimestamp` (no claim concerns its text).
* `try:`/`except:` sequencing is translated statement by statement: each
  fallible call is a `match` on its `Env` slot, the `error` branch jumping
  to the translation of the step's `except` block applied to the snapshot
  as filled in so far, exactly as Python leaves already-assigned keys in
  place.
-/

set_option maxRecDepth 20000

/-! ## String toolkit: the Python string operations used by the worker -/

/-- Python `str.islower`-style classification of whitespace used by
`str.split()` / `str.strip()`; ASCII whitespace suffices for the data the
worker handles. -/
def isWs (c : Char) : Bool :=
  c = ' ' || c = '\t' || c = '\n' || c = '\r'

/-- Python `str.lower` on the ASCII range (interface names, vendor ids and
trademark markers are ASCII). -/
def lowerChar (c : Char) : Char :=
  if 'A' ≤ c ∧ c ≤ 'Z' then Char.ofNat (c.toNat + 32) else c

def lowerStr (s : String) : String :=
  ⟨s.data.map lowerChar⟩

/-- Does list `l` start with list `p`?  (Python `str.startswith` on the
character lists.) -/
def leadsList : List Char → List Char → Bool
  | [], _ => true
  | _ :: _, [] => false
  | p :: ps, c :: cs => p = c && leadsList ps cs

/-- Python `a.startswith(b)`. -/
def leadsWith (p s : String) : Bool :=
  leadsList p.data s.data

/-- Does `pat` occur as a contiguous sublist of `l`?  (Python `a in b` on
strings, with `pat` the left operand.) -/
def containsList (pat : List Char) : List Char → Bool
  | [] => leadsList pat []
  | c :: cs => leadsList pat (c :: cs) || containsList pat cs

/-- Python `pat in s` substring containment. -/
def containsSub (s pat : String) : Bool :=
  containsList pat.data s.data

/-- One left-to-right removal pass of nonempty pattern `p :: ps`, the
semantics of Python `s.replace(pat, '')`. -/
def removeList (p : Char) (ps : List Char) : List Char → List Char
  | [] => []
  | c :: cs =>
    if leadsList (p :: ps) (c :: cs) then removeList p ps (cs.drop ps.length)
    else c :: removeList p ps cs
termination_by l => l.length
decreasing_by
  · simp only [List.length_cons]
    have h := List.length_drop ps.length cs
    omega
  · simp only [List.length_cons]; omega

/-- Python `s.replace(pat, '')` for a nonempty `pat` (the worker only
replaces the nonempty trademark markers). -/
def removeAll (pat : String) (s : String) : String :=
  match pat.data with
  | [] => s
  | p :: ps => ⟨removeList p ps s.data⟩

theorem dropWhile_length_le (p : Char → Bool) (l : List Char) :
    (l.dropWhile p).length ≤ l.length := by
  induction l with
  | nil => simp [List.dropWhile]
  | cons c cs ih =>
    simp only [List.dropWhile]
    split
    · exact Nat.le_trans ih (Nat.le_succ _)
    · simp

/-- The words of `l` separated by whitespace runs, Python `str.split()`. -/
def wordsOf : List Char → List (List Char)
  | [] => []
  | c :: cs =>
    if isWs c then wordsOf cs
    else (c :: cs.takeWhile (fun d => !isWs d)) :: wordsOf (cs.dropWhile (fun d => !isWs d))
termination_by l => l.length
decreasing_by
  · simp only [List.length_cons]; omega
  · simp only [List.length_cons]
    have h := dropWhile_length_le (fun d => !isWs d) cs
    omega

/-- `' '.join(ws)`. -/
def joinWords : List (List Char) → List Char
  | [] => []
  | [w] => w
  | w :: ws => w ++ ' ' :: joinWords ws

/-- Python `' '.join(s.split())`: collapse every whitespace run to a single
space and trim the ends. -/
def collapseWs (s : String) : String :=
  ⟨joinWords (wordsOf s.data)⟩

/-- Python `str.strip()` (no argument): drop leading and trailing
whitespace. -/
def stripWs (s : String) : String :=
  ⟨(((s.data.dropWhile isWs).reverse).dropWhile isWs).reverse⟩

/-- The processor-name clean-up of `gather_system_info` (source lines
116-118): collapse whitespace, then one removal pass each of the exact
markers `(R)`, `(TM)`, `(tm)` in that order, then strip. -/
def normalizeProc (s : String) : String :=
  stripWs (removeAll "(tm)" (removeAll "(TM)" (removeAll "(R)" (collapseWs s))))

/-- Split `l` at every occurrence of the character `sep`, keeping empty
pieces: Python `s.split(sep)`. -/
def splitChar (sep : Char) : List Char → List (List Char)
  | [] => [[]]
  | c :: cs =>
    if c = sep then [] :: splitChar sep cs
    else match splitChar sep cs with
      | [] => [[c]]
      | w :: ws => (c :: w) :: ws

/-- Split `l` at every occurrence of the nonempty separator `p :: ps`:
Python `s.split(sep)` for a multi-character separator. -/
def splitSeq (p : Char) (ps : List Char) : List Char → List (List Char)
  | [] => [[]]
  | c :: cs =>
    if leadsList (p :: ps) (c :: cs) then [] :: splitSeq p ps (cs.drop ps.length)
    else match splitSeq p ps cs with
      | [] => [[c]]
      | w :: ws => (c :: w) :: ws
termination_by l => l.length
decreasing_by
  · simp only [List.length_cons]
    have h := List.length_drop ps.length cs
    omega
  · simp only [List.length_cons]; omega

/-- Python `s.split(sep)` on strings. -/
def splitStr (sep s : String) : List String :=
  match sep.data with
  | [] => [s]
  | p :: ps => (splitSeq p ps s.data).map (fun w => ⟨w⟩)

/-- Python `s.split(sep, 1)[1]` — everything after the first occurrence of
`sep`, or `""` when `sep` does not occur. -/
def afterFirst (sep : Char) (s : String) : String :=
  match splitChar sep s.data with
  | [] => ""
  | [_] => ""
  | _ :: w :: ws => ⟨joinWith sep (w :: ws)⟩
where
  joinWith (sep : Char) : List (List Char) → List Char
    | [] => []
    | [w] => w
    | w :: ws => w ++ sep :: joinWith sep ws

/-! ## The capability heuristics (source lines 475-553) -/

structure MemCaps where
  max_capacity_gb : String
  memory_type : String
  max_speed : String
  slots_estimated : String
deriving DecidableEq

/-- `SystemInfoWorker.get_memory_capabilities`: a step function of current
total RAM (GB) with a cosmetic vendor adjustment.  The initial
all-`Unknown` dictionary of the source is dead (the `try` body cannot
raise), so the embedding is the computed value. -/
def get_memory_capabilities (current_ram_gb : ℚ) (cpu_vendor : String) : MemCaps :=
  let base : MemCaps :=
    if current_ram_gb ≤ 4 then ⟨"32 GB", "DDR4", "DDR4-3200", "2-4 slots"⟩
    else if current_ram_gb ≤ 8 then ⟨"64 GB", "DDR4", "DDR4-3200", "2-4 slots"⟩
    else if current_ram_gb ≤ 16 then ⟨"128 GB", "DDR4/DDR5", "DDR4-3600/DDR5-4800", "4 slots"⟩
    else if current_ram_gb ≤ 32 then ⟨"256 GB", "DDR4/DDR5", "DDR5-5600", "4-8 slots"⟩
    else ⟨"512+ GB", "DDR5/ECC", "DDR5-6400+", "8+ slots"⟩
  if containsSub (lowerStr cpu_vendor) "intel" then
    if 16 ≤ current_ram_gb then { base with memory_type := "DDR4/DDR5 (Intel)" } else base
  else if containsSub (lowerStr cpu_vendor) "amd" then
    if 16 ≤ current_ram_gb then { base with memory_type := "DDR4/DDR5 (AMD)" } else base
  else base

structure StorCaps where
  max_capacity : String
  interface_types : List String
  max_drives : String
deriving DecidableEq

/-- `SystemInfoWorker.get_storage_capabilities`: a step function of total
storage (GB). -/
def get_storage_capabilities (current_storage_gb : ℚ) : StorCaps :=
  if current_storage_gb ≤ 500 then
    ⟨"8-16 TB", ["SATA III", "M.2 NVMe"], "2-4 drives"⟩
  else if current_storage_gb ≤ 1000 then
    ⟨"16-32 TB", ["SATA III", "M.2 NVMe", "PCIe 4.0"], "4-6 drives"⟩
  else if current_storage_gb ≤ 2000 then
    ⟨"32-64 TB", ["SATA III", "M.2 NVMe", "PCIe 4.0", "U.2"], "6-8 drives"⟩
  else
    ⟨"64+ TB", ["SATA III", "M.2 NVMe", "PCIe 5.0", "U.2", "Enterprise SAS"], "8+ drives"⟩

/-! ## The snapshot data model (the `info` dictionary) -/

/-- `get_motherboard_info` result dictionary. -/
structure Mobo where
  manufacturer : String
  product : String
  version : String
  serial : String
deriving DecidableEq

/-- The `cpu_times` sub-dictionary. -/
structure CpuTimes where
  user : Rat
  sys : Rat
  idle : Rat
deriving DecidableEq

/-- Per-volume `io_stats` sub-dictionary (read/write bytes already scaled
to GB as in the source). -/
structure DiskIoStats where
  read_bytes : Rat
  write_bytes : Rat
  read_count : Nat
  write_count : Nat
deriving DecidableEq

/-- One entry of `info['storage_devices']`. -/
structure DeviceInfo where
  device : String
  mountpoint : String
  fstype : String
  total_gb : Rat
  used_gb : Rat
  free_gb : Rat
  percent : Rat
  io_stats : Option DiskIoStats
deriving DecidableEq

/-- The detailed fields a GPUtil-reported adapter carries beyond its name. -/
structure GpuDetails where
  memory_total : Rat
  memory_used : Rat
  memory_free : Rat
  load : Rat
  temperature : Rat
  uuid : String
  driver_version : String
deriving DecidableEq

/-- One entry of `info['gpu_devices']`: the fallback path appends a
name-only dictionary. -/
structure GpuEntry where
  name : String
  details : Option GpuDetails
deriving DecidableEq

/-- One entry of an interface's `addresses` list. -/
structure AddrEntry where
  atype : String
  address : String
  netmask : Option String
  broadcast : Option String
deriving DecidableEq

/-- Per-interface `io_stats` sub-dictionary (bytes already scaled to MB as
in the source). -/
structure NicStats where
  bytes_sent : Rat
  bytes_recv : Rat
  packets_sent : Nat
  packets_recv : Nat
  errors_in : Nat
  errors_out : Nat
  drops_in : Nat
  drops_out : Nat
deriving DecidableEq

/-- One entry of `info['network_interfaces']`. -/
structure NetIf where
  name : String
  is_up : Bool
  speed : Int
  mtu : Int
  addresses : List AddrEntry
  mac_address : Option String
  io_stats : Option NicStats
deriving DecidableEq

/-- `info['network_stats']` (bytes scaled to GB as in the source). -/
structure NetTotals where
  total_bytes_sent : Rat
  total_bytes_recv : Rat
  total_packets_sent : Nat
  total_packets_recv : Nat
deriving DecidableEq

/-- `info['battery']` when a battery is present. -/
structure BatteryEntry where
  percent : Rat
  plugged : Bool
  time_left : Option String
  time_left_seconds : Option Int
deriving DecidableEq

/-- One reading of a temperature sensor group. -/
structure TempEntry where
  label : String
  current : Rat
  high : Option Rat
  critical : Option Rat
deriving DecidableEq

/-- One reading of a fan group. -/
structure FanEntry where
  label : String
  current : Rat
deriving DecidableEq

/-- `info['load_average']`. -/
structure LoadAvg where
  one_min : Rat
  five_min : Rat
  fifteen_min : Rat
deriving DecidableEq

/-- The snapshot dictionary assembled by `gather_system_info`.  Field
`f : Option A` is `none` exactly when the key is absent; the doubly
optional fields mark keys whose Python value may be `None` (or the empty
dictionary for the two capability fields and `network_stats`). -/
structure Info where
  os_name : Option String := none
  os_version : Option String := none
  os_build : Option String := none
  os_edition : Option (Option String) := none
  os_full : Option String := none
  os_architecture : Option String := none
  hostname : Option String := none
  machine_type : Option String := none
  username : Option String := none
  uptime : Option String := none
  boot_time : Option String := none
  motherboard : Option Mobo := none
  processor : Option String := none
  cpu_vendor : Option String := none
  cpu_family : Option String := none
  cpu_model : Option String := none
  cpu_stepping : Option String := none
  cpu_flags : Option (List String) := none
  cpu_cache_l1 : Option String := none
  cpu_cache_l2 : Option String := none
  cpu_cache_l3 : Option String := none
  cpu_cores_physical : Option Nat := none
  cpu_cores_logical : Option Nat := none
  cpu_freq_current : Option Rat := none
  cpu_freq_max : Option Rat := none
  cpu_freq_min : Option Rat := none
  cpu_usage : Option Rat := none
  cpu_usage_per_core : Option (List Rat) := none
  cpu_times : Option CpuTimes := none
  ram_total_gb : Option Rat := none
  ram_used_gb : Option Rat := none
  ram_available_gb : Option Rat := none
  ram_free_gb : Option Rat := none
  ram_percent : Option Rat := none
  ram_cached_gb : Option Rat := none
  ram_buffers_gb : Option Rat := none
  memory_capabilities : Option (Option MemCaps) := none
  swap_total_gb : Option Rat := none
  swap_used_gb : Option Rat := none
  swap_free_gb : Option Rat := none
  swap_percent : Option Rat := none
  storage_devices : Option (List DeviceInfo) := none
  storage_capabilities : Option (Option StorCaps) := none
  gpu_devices : Option (List GpuEntry) := none
  network_interfaces : Option (List NetIf) := none
  network_stats : Option (Option NetTotals) := none
  battery : Option (Option BatteryEntry) := none
  temperatures : Option (List (String × List TempEntry)) := none
  fans : Option (List (String × List FanEntry)) := none
  process_count : Option Nat := none
  process_running : Option Nat := none
  process_sleeping : Option Nat := none
  load_average : Option (Option LoadAvg) := none
deriving DecidableEq

/-- The empty dictionary `info = {}` at the top of `gather_system_info`. -/
def Info.empty : Info := {}

/-! ## The environment: one slot per OS-level query -/

/-- Exception classification used by the per-volume handler of the storage
step: `permOs` is `PermissionError`/`OSError` (caught by
`except (PermissionError, OSError): continue`), `other` is any other
exception class (for example `ZeroDivisionError`), which escapes it. -/
inductive PyErr where
  | permOs
  | other
deriving DecidableEq

def exOk {e a : Type} : Except e a → Bool
  | .ok _ => true
  | .error _ => false

def exVal {e a : Type} (d : a) : Except e a → a
  | .ok v => v
  | .error _ => d

def exOpt {e a : Type} : Except e a → Option a
  | .ok v => some v
  | .error _ => none

/-- Result of a `subprocess.run(..., capture_output=True, text=True)`. -/
structure CmdResult where
  returncode : Int
  stdout : String
deriving DecidableEq

/-- The dictionary returned by `cpuinfo.get_cpu_info()`; `none` fields are
keys missing from the dictionary (`dict.get` supplies the default). -/
structure CpuInfoData where
  brand_raw : Option String
  vendor_id_raw : Option String
  family : Option String
  model : Option String
  stepping : Option String
  flags : Option (List String)
  l1_data_cache_size : Option String
  l2_cache_size : Option String
  l3_cache_size : Option String
deriving DecidableEq

/-- `psutil.cpu_freq()` namedtuple (MHz). -/
structure FreqData where
  current : Rat
  max : Rat
  min : Rat
deriving DecidableEq

/-- `psutil.virtual_memory()` namedtuple (bytes); `cached`/`buffers` are 0
when the platform lacks the attribute (`getattr(memory, _, 0)`). -/
structure VmData where
  total : Rat
  used : Rat
  available : Rat
  free : Rat
  percent : Rat
  cached : Rat
  buffers : Rat
deriving DecidableEq

/-- `psutil.swap_memory()` namedtuple (bytes). -/
structure SwapData where
  total : Rat
  used : Rat
  free : Rat
  percent : Rat
deriving DecidableEq

/-- One `psutil.disk_partitions()` entry. -/
structure PartitionData where
  device : String
  mountpoint : String
  fstype : String
  opts : String
deriving DecidableEq

/-- `psutil.disk_usage(mountpoint)` namedtuple (bytes, integers). -/
structure UsageData where
  total : Rat
  used : Rat
  free : Rat
deriving DecidableEq

/-- One value of the `psutil.disk_io_counters(perdisk=True)` dictionary. -/
structure DiskRaw where
  read_bytes : Rat
  write_bytes : Rat
  read_count : Nat
  write_count : Nat
deriving DecidableEq

/-- One `GPUtil.getGPUs()` entry; `driver` is `none` when the object lacks
the attribute (`getattr(gpu, 'driver', 'Unknown')`). -/
structure GpuData where
  name : String
  memoryTotal : Rat
  memoryUsed : Rat
  memoryFree : Rat
  load : Rat
  temperature : Rat
  uuid : String
  driver : Option String
deriving DecidableEq

/-- One address of a `psutil.net_if_addrs()` entry; `family` is the string
rendering `str(addr.family)` that the source tests by substring. -/
structure AddrData where
  family : String
  address : String
  netmask : Option String
  broadcast : Option String
deriving DecidableEq

/-- One `psutil.net_if_stats()` entry. -/
structure IfStatsData where
  isup : Bool
  speed : Int
  mtu : Int
deriving DecidableEq

/-- One value of `psutil.net_io_counters(pernic=True)` (raw counters). -/
structure NicRaw where
  bytes_sent : Rat
  bytes_recv : Rat
  packets_sent : Nat
  packets_recv : Nat
  errin : Nat
  errout : Nat
  dropin : Nat
  dropout : Nat
deriving DecidableEq

/-- `psutil.sensors_battery()` namedtuple. -/
structure BatteryData where
  percent : Rat
  power_plugged : Bool
  secsleft : Int
deriving DecidableEq

/-- One reading of `psutil.sensors_temperatures()`; an empty `label`
models the falsy label the source replaces by the group name. -/
structure TempData where
  label : String
  current : Rat
  high : Option Rat
  critical : Option Rat
deriving DecidableEq

/-- One reading of `psutil.sensors_fans()`. -/
structure FanData where
  label : String
  current : Rat
deriving DecidableEq

/-- `psutil.POWER_TIME_UNLIMITED`. -/
def POWER_TIME_UNLIMITED : Int := -2

/-- `psutil.STATUS_RUNNING` / `psutil.STATUS_SLEEPING`. -/
def STATUS_RUNNING : String := "running"
def STATUS_SLEEPING : String := "sleeping"

/-- One collection run's view of the host: every fallible OS query of
`gather_system_info` and its helpers is a slot.  `system`,
`platformProcessor`, `now` and the two environment-variable reads are
modelled as infallible (cached / non-raising in CPython), and
`psutil.net_io_counters(pernic=True)` and its no-argument aggregate
variant both derive from the true per-interface counter table `nics`
(psutil computes the aggregate as the sum over all interfaces). -/
structure Env where
  system : String
  q_release : Except Unit String
  q_version : Except Unit String
  q_edition : Except Unit (Option String)
  q_architecture : Except Unit String
  q_hostname : Except Unit String
  q_machine : Except Unit String
  q_getlogin : Except Unit String
  envUsername : Option String
  envUserVar : Option String
  now : Rat
  q_bootTime : Except Unit Rat
  q_moboCmd : Except Unit CmdResult
  hasCpuinfo : Bool
  q_cpuinfo : Except Unit CpuInfoData
  platformProcessor : String
  q_physCores : Except Unit (Option Nat)
  q_logCores : Except Unit (Option Nat)
  q_freq : Except Unit (Option FreqData)
  q_cpuPercent : Except Unit Rat
  q_perCore : Except Unit (List Rat)
  q_cpuTimes : Except Unit CpuTimes
  q_vm : Except Unit VmData
  q_swap : Except Unit SwapData
  q_partitions : Except Unit (List PartitionData)
  q_diskUsage : String → Except PyErr UsageData
  q_diskCounters : Except PyErr (List (String × DiskRaw))
  hasGputil : Bool
  q_gpus : Except Unit (List GpuData)
  q_gpuCmd : Except Unit CmdResult
  q_ifAddrs : Except Unit (List (String × List AddrData))
  q_ifStats : Except Unit (List (String × IfStatsData))
  nics : List (String × NicRaw)
  q_nicPernic : Except Unit Unit
  q_nicTotal : Except Unit Unit
  q_battery : Except Unit (Option BatteryData)
  q_temps : Except Unit (List (String × List TempData))
  q_fans : Except Unit (List (String × List FanData))
  q_pids : Except Unit Nat
  q_statuses1 : Except Unit (List String)
  q_statuses2 : Except Unit (List String)
  hasGetloadavg : Bool
  q_loadavg : Except Unit (Rat × Rat × Rat)

/-! ## The collection steps of `gather_system_info` -/

/-- The `except` block of the operating-system step (source lines 68-72):
note it overwrites only four keys, leaving earlier assignments in place. -/
def osExcept (j : Info) : Info :=
  { j with os_full := some "Unknown OS", os_architecture := some "Unknown",
           hostname := some "Unknown", username := some "Unknown" }

/-- Source lines 42-72: operating-system identity. -/
def stepIdentity (env : Env) (info : Info) : Info :=
  let i0 := { info with os_name := some env.system }
  match env.q_release with
  | .error _ => osExcept i0
  | .ok rel =>
    let i1 := { i0 with os_version := some rel }
    match env.q_version with
    | .error _ => osExcept i1
    | .ok ver =>
      let i2 := { i1 with os_build := some ver }
      let i3 :=
        if env.system = "Windows" then
          let i3a := { i2 with os_full := some ("Windows " ++ rel) }
          match env.q_edition with
          | .error _ => i3a
          | .ok ed =>
            let i3b := { i3a with os_edition := some ed }
            match ed with
            | some e =>
              if e ≠ "" then { i3b with os_full := some ("Windows " ++ rel ++ " " ++ e) }
              else i3b
            | none => i3b
        else { i2 with os_full := some (env.system ++ " " ++ rel) }
      match env.q_architecture with
      | .error _ => osExcept i3
      | .ok arch =>
        let i4 := { i3 with os_architecture := some arch }
        match env.q_hostname with
        | .error _ => osExcept i4
        | .ok hn =>
          let i5 := { i4 with hostname := some hn }
          match env.q_machine with
          | .error _ => osExcept i5
          | .ok mt =>
            let i6 := { i5 with machine_type := some mt }
            match env.q_getlogin with
            | .ok u => { i6 with username := some u }
            | .error _ =>
              { i6 with username := some (env.envUsername.getD (env.envUserVar.getD "Unknown")) }

/-- `f"{n:02d}"`. -/
def pad2 (n : Nat) : String :=
  if n < 10 then "0" ++ toString n else toString n

/-- Abstraction of `datetime.fromtimestamp(t).strftime("%Y-%m-%d %H:%M:%S")`:
calendar rendering is outside every claim, so the timestamp is encoded
injectively instead. -/
def formatTimestamp (t : Rat) : String :=
  "epoch " ++ toString t.num ++ "/" ++ toString t.den

/-- The `f"{days} days, {hours:02d}:{minutes:02d}"` rendering of
`timedelta(seconds=secs)` (source lines 80-84). -/
def uptimeString (secs : Rat) : String :=
  let total : Int := Int.floor secs
  let days : Int := Int.fdiv total 86400
  let sid : Nat := (Int.fmod total 86400).toNat
  toString days ++ " days, " ++ pad2 (sid / 3600) ++ ":" ++ pad2 (sid % 3600 / 60)

/-- Source lines 75-88: uptime and boot time. -/
def stepUptime (env : Env) (info : Info) : Info :=
  match env.q_bootTime with
  | .error _ => { info with uptime := some "Unknown", boot_time := some "Unknown" }
  | .ok bt =>
    { info with uptime := some (uptimeString (env.now - bt)),
                boot_time := some (formatTimestamp bt) }

/-- `s.split('\n')` as a list of strings. -/
def linesOf (s : String) : List String :=
  (splitChar '\n' s.data).map (fun w => (⟨w⟩ : String))

/-- Python `s or 'Unknown'` on a string. -/
def orUnknown (s : String) : String :=
  if s = "" then "Unknown" else s

/-- The `wmic baseboard` CSV scan (source lines 440-449): first data line
with a comma and at least five fields wins. -/
def scanWmicMobo : List String → Mobo → Mobo
  | [], m => m
  | line :: rest, m =>
    if stripWs line ≠ "" ∧ containsSub line "," then
      let parts := (splitChar ',' line.data).map (fun w => (⟨w⟩ : String))
      if 5 ≤ parts.length then
        { manufacturer := orUnknown (stripWs ((parts.get? 1).getD "")),
          product := orUnknown (stripWs ((parts.get? 2).getD "")),
          serial := orUnknown (stripWs ((parts.get? 3).getD "")),
          version := orUnknown (stripWs ((parts.get? 4).getD "")) }
      else scanWmicMobo rest m
    else scanWmicMobo rest m

/-- One line of the `dmidecode -t baseboard` scan (source lines 459-467). -/
def scanDmiLine (m : Mobo) (lineRaw : String) : Mobo :=
  let line := stripWs lineRaw
  if containsSub line "Manufacturer:" then { m with manufacturer := stripWs (afterFirst ':' line) }
  else if containsSub line "Product Name:" then { m with product := stripWs (afterFirst ':' line) }
  else if containsSub line "Version:" then { m with version := stripWs (afterFirst ':' line) }
  else m

/-- `SystemInfoWorker.get_motherboard_info` (source lines 422-473). -/
def get_motherboard_info (env : Env) : Mobo :=
  let base : Mobo := ⟨"Unknown", "Unknown", "Unknown", "Unknown"⟩
  if env.system = "Windows" then
    match env.q_moboCmd with
    | .error _ => base
    | .ok r =>
      if r.returncode = 0 then scanWmicMobo ((linesOf (stripWs r.stdout)).drop 1) base
      else base
  else if env.system = "Linux" then
    match env.q_moboCmd with
    | .error _ => base
    | .ok r =>
      if r.returncode = 0 then (linesOf r.stdout).foldl scanDmiLine base
      else base
  else base

/-- Source line 93: the motherboard step (the helper itself never raises). -/
def stepMobo (env : Env) (info : Info) : Info :=
  { info with motherboard := some (get_motherboard_info env) }

/-- The `except` block of the processor step (source lines 151-156). -/
def cpuExcept (j : Info) : Info :=
  { j with processor := some "Unknown Processor",
           cpu_cores_physical := some 0, cpu_cores_logical := some 0,
           cpu_usage := some 0, cpu_usage_per_core := some [] }

/-- The clean-up guarded by `if info['processor']:` (source lines
115-118): an empty (falsy) or absent name is left alone. -/
def procClean : Option String → Option String
  | none => none
  | some p => if p ≠ "" then some (normalizeProc p) else some p

/-- The three frequency fields (GHz) for every outcome of the inner
`cpu_freq` try/except of source lines 123-137. -/
def freqV (env : Env) : Rat × Rat × Rat :=
  match env.q_freq with
  | .ok (some f) =>
    (f.current / 1000, if f.max ≠ 0 then f.max / 1000 else 0,
     if f.min ≠ 0 then f.min / 1000 else 0)
  | _ => (0, 0, 0)

/-- Source lines 115-149: the tail of the processor step after the
identification source has filled `info['processor']`. -/
def stepCpuRest (env : Env) (j : Info) : Info :=
  let j1 := { j with processor := procClean j.processor }
  match env.q_physCores with
  | .error _ => cpuExcept j1
  | .ok pc =>
    let j2 := { j1 with cpu_cores_physical := some (pc.getD 0) }
    match env.q_logCores with
    | .error _ => cpuExcept j2
    | .ok lc =>
      let j3 := { j2 with cpu_cores_logical := some (lc.getD 0) }
      let j4 := { j3 with cpu_freq_current := some (freqV env).1,
                          cpu_freq_max := some (freqV env).2.1,
                          cpu_freq_min := some (freqV env).2.2 }
      match env.q_cpuPercent with
      | .error _ => cpuExcept j4
      | .ok u =>
        let j5 := { j4 with cpu_usage := some u }
        match env.q_perCore with
        | .error _ => cpuExcept j5
        | .ok l =>
          let j6 := { j5 with cpu_usage_per_core := some l }
          match env.q_cpuTimes with
          | .error _ => cpuExcept j6
          | .ok t => { j6 with cpu_times := some t }

/-- Source lines 96-156: the processor step. -/
def stepCpu (env : Env) (info : Info) : Info :=
  if env.hasCpuinfo then
    match env.q_cpuinfo with
    | .error _ => cpuExcept info
    | .ok d =>
      stepCpuRest env
        { info with
          processor := some (d.brand_raw.getD env.platformProcessor),
          cpu_vendor := some (d.vendor_id_raw.getD "Unknown"),
          cpu_family := some (d.family.getD "Unknown"),
          cpu_model := some (d.model.getD "Unknown"),
          cpu_stepping := some (d.stepping.getD "Unknown"),
          cpu_flags := some (d.flags.getD []),
          cpu_cache_l1 := some (d.l1_data_cache_size.getD "Unknown"),
          cpu_cache_l2 := some (d.l2_cache_size.getD "Unknown"),
          cpu_cache_l3 := some (d.l3_cache_size.getD "Unknown") }
  else
    stepCpuRest env
      { info with processor := some env.platformProcessor,
                  cpu_vendor := some "Unknown", cpu_flags := some [] }

/-- `1024 ** 3`, the byte → GB divisor. -/
def gbDiv : Rat := 1024 ^ 3

/-- `1024 ** 2`, the byte → MB divisor. -/
def mbDiv : Rat := 1024 ^ 2

/-- The `except` block of the memory step (source lines 180-188); note it
leaves `ram_free_gb`, `ram_cached_gb`, `ram_buffers_gb` and `swap_free_gb`
as they are. -/
def memExcept (j : Info) : Info :=
  { j with ram_total_gb := some 0, ram_used_gb := some 0, ram_available_gb := some 0,
           ram_percent := some 0, swap_total_gb := some 0, swap_used_gb := some 0,
           swap_percent := some 0, memory_capabilities := some none }

/-- Source lines 159-188: the memory step.  The capability heuristic reads
`info.get('cpu_vendor', '')`, a value left behind by the processor step. -/
def stepMem (env : Env) (info : Info) : Info :=
  match env.q_vm with
  | .error _ => memExcept info
  | .ok m =>
    let i1 := { info with
      ram_total_gb := some (m.total / gbDiv), ram_used_gb := some (m.used / gbDiv),
      ram_available_gb := some (m.available / gbDiv), ram_free_gb := some (m.free / gbDiv),
      ram_percent := some m.percent, ram_cached_gb := some (m.cached / gbDiv),
      ram_buffers_gb := some (m.buffers / gbDiv) }
    let caps := get_memory_capabilities (m.total / gbDiv) (info.cpu_vendor.getD "")
    let i2 := { i1 with memory_capabilities := some (some caps) }
    match env.q_swap with
    | .error _ => memExcept i2
    | .ok s =>
      { i2 with swap_total_gb := some (s.total / gbDiv), swap_used_gb := some (s.used / gbDiv),
                swap_free_gb := some (s.free / gbDiv), swap_percent := some s.percent }

/-- Accumulator of the storage partition loop: the devices appended so
far (the source appends in place, so they survive an abort), the running
byte total, and whether an exception escaped the per-volume handler. -/
structure StorageAcc where
  devs : List DeviceInfo
  total : Rat
  aborted : Bool
deriving DecidableEq

/-- Source line 203: the Windows skip of floppy/optical media. -/
def skipPart (env : Env) (p : PartitionData) : Bool :=
  env.system = "Windows" &&
    (leadsWith "A:" p.device || leadsWith "B:" p.device || containsSub p.opts "cdrom")

/-- Source line 211: the device-name key used for I/O-counter matching. -/
def deviceNameOf (env : Env) (device : String) : String :=
  if env.system = "Windows" then ⟨device.data.filter (fun c => ¬ (c = ':' ∨ c = '\\'))⟩
  else ⟨((splitChar '/' device.data).getLast?).getD []⟩

/-- Source lines 214-222: first per-disk counter entry whose name contains
the device name as a case-insensitive substring. -/
def findDiskStats (dname : String) : List (String × DiskRaw) → Option DiskRaw
  | [] => none
  | (n, st) :: rest =>
    if containsSub (lowerStr n) (lowerStr dname) then some st
    else findDiskStats dname rest

def mkIoStats : Option DiskRaw → Option DiskIoStats
  | none => none
  | some st => some ⟨st.read_bytes / gbDiv, st.write_bytes / gbDiv, st.read_count, st.write_count⟩

/-- Source lines 199-236: the per-partition loop.  `PermissionError` /
`OSError` hits the `continue` handler; any other exception — in
particular the `ZeroDivisionError` raised by
`(usage.used / usage.total) * 100` when a volume reports `total == 0` —
escapes it and aborts the whole step. -/
def storageLoop (env : Env) : List PartitionData → StorageAcc → StorageAcc
  | [], acc => acc
  | p :: rest, acc =>
    if skipPart env p then storageLoop env rest acc
    else
      match env.q_diskUsage p.mountpoint with
      | .error .permOs => storageLoop env rest acc
      | .error .other => { acc with aborted := true }
      | .ok u =>
        let total2 := acc.total + u.total
        match env.q_diskCounters with
        | .error .permOs => storageLoop env rest { acc with total := total2 }
        | .error .other => { acc with total := total2, aborted := true }
        | .ok dmap =>
          if u.total = 0 then { acc with total := total2, aborted := true }
          else
            let dev : DeviceInfo :=
              { device := p.device, mountpoint := p.mountpoint, fstype := p.fstype,
                total_gb := u.total / gbDiv, used_gb := u.used / gbDiv,
                free_gb := u.free / gbDiv, percent := u.used / u.total * 100,
                io_stats := mkIoStats (findDiskStats (deviceNameOf env p.device) dmap) }
            storageLoop env rest { devs := acc.devs ++ [dev], total := total2, aborted := false }

/-- Source lines 190-242: the storage step.  On an abort the devices
appended so far remain and `storage_capabilities` keeps its preset `{}`. -/
def stepStorage (env : Env) (info : Info) : Info :=
  let i0 := { info with storage_devices := some [], storage_capabilities := some none }
  match env.q_partitions with
  | .error _ => i0
  | .ok parts =>
    let r := storageLoop env parts ⟨[], 0, false⟩
    if r.aborted then { i0 with storage_devices := some r.devs }
    else
      { i0 with storage_devices := some r.devs,
                storage_capabilities := some (some (get_storage_capabilities (r.total / gbDiv))) }

/-- One GPUtil adapter entry (source lines 250-261). -/
def mkGpuEntry (g : GpuData) : GpuEntry :=
  { name := g.name,
    details := some ⟨g.memoryTotal, g.memoryUsed, g.memoryFree, g.load * 100,
                     g.temperature, g.uuid, g.driver.getD "Unknown"⟩ }

/-- The `wmic path win32_VideoController` scan (source lines 563-568). -/
def findWmicGpu : List String → Option String
  | [] => none
  | l :: rest =>
    let line := stripWs l
    if line ≠ "" ∧ line ≠ "Name" ∧ ¬ (containsSub line "Microsoft" = true) then some line
    else findWmicGpu rest

/-- The `lspci` scan (source lines 571-577). -/
def findLspciGpu : List String → Option String
  | [] => none
  | l :: rest =>
    if containsSub l "VGA" || containsSub l "Display" then
      let parts := splitStr ": " l
      if 1 < parts.length then some (((splitStr " (" ((parts.get? 1).getD "")).headD ""))
      else findLspciGpu rest
    else findLspciGpu rest

/-- `SystemInfoWorker.get_gpu_info` (source lines 555-581). -/
def get_gpu_info (env : Env) : Option String :=
  if env.system = "Windows" then
    match env.q_gpuCmd with
    | .error _ => none
    | .ok r =>
      if r.returncode = 0 then findWmicGpu (linesOf (stripWs r.stdout)) else none
  else if env.system = "Linux" then
    match env.q_gpuCmd with
    | .error _ => none
    | .ok r => if r.returncode = 0 then findLspciGpu (linesOf r.stdout) else none
  else none

/-- The `if gpu_name and gpu_name != "Unknown Graphics Card"` fallback
append (source lines 264-267). -/
def gpuFallback (env : Env) (i0 : Info) : Info :=
  match get_gpu_info env with
  | some n =>
    if n ≠ "" ∧ n ≠ "Unknown Graphics Card" then { i0 with gpu_devices := some [⟨n, none⟩] }
    else i0
  | none => i0

/-- Source lines 245-269: the graphics step. -/
def stepGpu (env : Env) (info : Info) : Info :=
  let i0 := { info with gpu_devices := some [] }
  if env.hasGputil then
    match env.q_gpus with
    | .error _ => i0
    | .ok gl =>
      let lst := gl.map mkGpuEntry
      if lst.isEmpty then gpuFallback env i0
      else { i0 with gpu_devices := some lst }
  else gpuFallback env i0

/-- Source line 283: loopback / virtual interface-name exclusion. -/
def nameExcluded (name : String) : Bool :=
  lowerStr name = "lo" || lowerStr name = "loopback" || containsSub (lowerStr name) "virtual"

/-- First-match association lookup, the `name in dict` + `dict[name]`
pattern of the source. -/
def lookupAssoc {α : Type} : List (String × α) → String → Option α
  | [], _ => none
  | (n, v) :: rest, k => if n = k then some v else lookupAssoc rest k

/-- Source line 299: `'AF_INET' in str(addr.family)` and not a 127.*
address.  (`str(AddressFamily.AF_INET6)` also contains `AF_INET`, a
faithful artefact of the substring test.) -/
def isInetAddr (a : AddrData) : Bool :=
  containsSub a.family "AF_INET" && !(leadsWith "127." a.address)

/-- Source line 306: link-layer (MAC) address families. -/
def isLinkAddr (a : AddrData) : Bool :=
  containsSub a.family "AF_LINK" || containsSub a.family "AF_PACKET"

def addrEntries (addrs : List AddrData) : List AddrEntry :=
  addrs.filterMap (fun a =>
    if isInetAddr a then some ⟨"IPv4", a.address, a.netmask, a.broadcast⟩ else none)

/-- The last link-layer address wins (repeated assignment in the loop). -/
def macOf (addrs : List AddrData) : Option String :=
  addrs.foldl (fun acc a =>
    if isInetAddr a then acc else if isLinkAddr a then some a.address else acc) none

def mkNicStats (r : NicRaw) : NicStats :=
  ⟨r.bytes_sent / mbDiv, r.bytes_recv / mbDiv, r.packets_sent, r.packets_recv,
   r.errin, r.errout, r.dropin, r.dropout⟩

/-- Source lines 286-321: one interface's entry. -/
def buildIface (name : String) (addrs : List AddrData) (st : IfStatsData)
    (nics : List (String × NicRaw)) : NetIf :=
  { name := name, is_up := st.isup,
    speed := if 0 < st.speed then st.speed else 0,
    mtu := st.mtu,
    addresses := addrEntries addrs,
    mac_address := macOf addrs,
    io_stats := (lookupAssoc nics name).map mkNicStats }

/-- Source lines 281-324: the interface loop with its three exclusions. -/
def networkList (al : List (String × List AddrData)) (sl : List (String × IfStatsData))
    (nics : List (String × NicRaw)) : List NetIf :=
  al.filterMap (fun e =>
    if nameExcluded e.1 then none
    else
      match lookupAssoc sl e.1 with
      | none => none
      | some st =>
        let ifc := buildIface e.1 e.2 st nics
        if ifc.addresses.isEmpty then none else some ifc)

/-- The no-argument `psutil.net_io_counters()` aggregate: the sum of the
per-interface counters over ALL interfaces. -/
def sumNics (nics : List (String × NicRaw)) : NetTotals :=
  { total_bytes_sent := (nics.map (fun e => e.2.bytes_sent)).sum / gbDiv,
    total_bytes_recv := (nics.map (fun e => e.2.bytes_recv)).sum / gbDiv,
    total_packets_sent := (nics.map (fun e => e.2.packets_sent)).sum,
    total_packets_recv := (nics.map (fun e => e.2.packets_recv)).sum }

/-- Source lines 272-336: the network step. -/
def stepNet (env : Env) (info : Info) : Info :=
  let i0 := { info with network_interfaces := some [], network_stats := some none }
  match env.q_ifAddrs with
  | .error _ => i0
  | .ok al =>
    match env.q_ifStats with
    | .error _ => i0
    | .ok sl =>
      match env.q_nicPernic with
      | .error _ => i0
      | .ok _ =>
        let i1 := { i0 with network_interfaces := some (networkList al sl env.nics) }
        match env.q_nicTotal with
        | .error _ => i1
        | .ok _ =>
          if env.nics.isEmpty then i1
          else { i1 with network_stats := some (some (sumNics env.nics)) }

/-- Source lines 344-355: the battery dictionary built for a present
battery, including the `f"{hours}h {minutes}m"` remaining-time string
computed only for a finite positive `secsleft`. -/
def mkBatteryEntry (b : BatteryData) : BatteryEntry :=
  let tl : Option String :=
    if b.secsleft ≠ POWER_TIME_UNLIMITED ∧ 0 < b.secsleft then
      some (toString (b.secsleft.toNat / 3600) ++ "h " ++
            toString (b.secsleft.toNat % 3600 / 60) ++ "m")
    else none
  { percent := b.percent, plugged := b.power_plugged, time_left := tl,
    time_left_seconds :=
      if b.secsleft ≠ POWER_TIME_UNLIMITED then some b.secsleft else none }

/-- Source lines 339-357: the battery step.  A successful query reporting
no battery assigns nothing; a raised exception stores `None`. -/
def stepBattery (env : Env) (info : Info) : Info :=
  match env.q_battery with
  | .error _ => { info with battery := some none }
  | .ok none => info
  | .ok (some b) => { info with battery := some (some (mkBatteryEntry b)) }

def tempEntries (grp : String) (sl : List TempData) : List TempEntry :=
  sl.map (fun s => ⟨if s.label = "" then grp else s.label, s.current, s.high, s.critical⟩)

def tempGroups (tl : List (String × List TempData)) : List (String × List TempEntry) :=
  tl.filterMap (fun e => if e.2.isEmpty then none else some (e.1, tempEntries e.1 e.2))

/-- Source lines 360-376: the thermal step (empty groups are skipped). -/
def stepThermal (env : Env) (info : Info) : Info :=
  match env.q_temps with
  | .error _ => { info with temperatures := some [] }
  | .ok tl => { info with temperatures := some (tempGroups tl) }

def fanEntries (grp : String) (sl : List FanData) : List FanEntry :=
  sl.map (fun s => ⟨if s.label = "" then grp else s.label, s.current⟩)

def fanGroups (fl : List (String × List FanData)) : List (String × List FanEntry) :=
  fl.filterMap (fun e => if e.2.isEmpty then none else some (e.1, fanEntries e.1 e.2))

/-- Source lines 378-391: the fan step. -/
def stepFans (env : Env) (info : Info) : Info :=
  match env.q_fans with
  | .error _ => { info with fans := some [] }
  | .ok fl => { info with fans := some (fanGroups fl) }

def countStatus (l : List String) (st : String) : Nat :=
  (l.filter (fun s => s = st)).length

/-- The `except` block of the process step (source lines 400-403): all
three counts are reset to zero. -/
def procExcept (j : Info) : Info :=
  { j with process_count := some 0, process_running := some 0, process_sleeping := some 0 }

/-- Source lines 394-403: the process census, three separate enumerations
inside one handler. -/
def stepProcs (env : Env) (info : Info) : Info :=
  match env.q_pids with
  | .error _ => procExcept info
  | .ok n =>
    let i1 := { info with process_count := some n }
    match env.q_statuses1 with
    | .error _ => procExcept i1
    | .ok l1 =>
      let i2 := { i1 with process_running := some (countStatus l1 STATUS_RUNNING) }
      match env.q_statuses2 with
      | .error _ => procExcept i2
      | .ok l2 => { i2 with process_sleeping := some (countStatus l2 STATUS_SLEEPING) }

/-- `round(x, 2)` idealised on rationals. -/
def round2 (x : Rat) : Rat := ((round (x * 100) : Int) : Rat) / 100

/-- Source lines 406-415: load average, only on platforms exposing it. -/
def stepLoad (env : Env) (info : Info) : Info :=
  if env.hasGetloadavg then
    match env.q_loadavg with
    | .error _ => { info with load_average := some none }
    | .ok (a, b, c) => { info with load_average := some (some ⟨round2 a, round2 b, round2 c⟩) }
  else info

/-- `SystemInfoWorker.gather_system_info`: the thirteen steps in source
order, starting from the empty dictionary. -/
def gather_system_info (env : Env) : Info :=
  stepLoad env (stepProcs env (stepFans env (stepThermal env (stepBattery env
    (stepNet env (stepGpu env (stepStorage env (stepMem env (stepCpu env
      (stepMobo env (stepUptime env (stepIdentity env Info.empty))))))))))))

/-! ## The observable event stream of one run -/

/-- One signal emission: `progress_update` or `info_ready`. -/
inductive Event where
  | progress (message : String) (percent : Nat)
  | ready (snapshot : Info)

/-- The twelve `progress_update.emit` calls of `gather_system_info`, in
source order; each precedes its step's body. -/
def progressPoints : List (String × Nat) :=
  [("Detecting operating system...", 5),
   ("Calculating system uptime...", 10),
   ("Scanning motherboard information...", 20),
   ("Analyzing processor specifications...", 30),
   ("Examining memory configuration...", 45),
   ("Scanning storage devices...", 60),
   ("Detecting graphics hardware...", 70),
   ("Analyzing network interfaces...", 80),
   ("Checking power management...", 85),
   ("Reading sensor data...", 90),
   ("Counting system processes...", 95),
   ("Finalizing system analysis...", 100)]

/-- `SystemInfoWorker.run`: the emission order of one invocation — the
progress events during `gather_system_info` (none of them conditional),
then exactly one `info_ready` with the snapshot. -/
def runWorker (env : Env) : List Event :=
  (progressPoints.map (fun e => Event.progress e.1 e.2)) ++
    [Event.ready (gather_system_info env)]

def readyList (tr : List Event) : List Info :=
  tr.filterMap (fun e => match e with | .ready i => some i | _ => none)

def percentsOf (tr : List Event) : List Nat :=
  tr.filterMap (fun e => match e with | .progress _ p => some p | _ => none)

/-! ## Per-step success specifications

For each collection step, the values its fields take on the success path,
expressed as functions of the environment.  `stepSpec t env info` says
that step `t`'s fields in `info` carry exactly those values. -/

inductive StepId where
  | identity | uptime | mobo | cpu | mem | storage | graphics | network
  | battery | thermal | fans | procs | loadavg
deriving DecidableEq

def allSteps : List StepId :=
  [.identity, .uptime, .mobo, .cpu, .mem, .storage, .graphics, .network,
   .battery, .thermal, .fans, .procs, .loadavg]

def relV (env : Env) : String := exVal "" env.q_release

/-- `info['os_edition']` after a successful identity step. -/
def editionV (env : Env) : Option (Option String) :=
  if env.system = "Windows" then exOpt env.q_edition else none

/-- `info['os_full']` after a successful identity step. -/
def osFullV (env : Env) : String :=
  if env.system = "Windows" then
    match env.q_edition with
    | .ok (some e) =>
      if e ≠ "" then "Windows " ++ relV env ++ " " ++ e else "Windows " ++ relV env
    | _ => "Windows " ++ relV env
  else env.system ++ " " ++ relV env

/-- `info['username']`: `os.getlogin()` falling back to the environment
variables. -/
def userV (env : Env) : String :=
  match env.q_getlogin with
  | .ok u => u
  | .error _ => env.envUsername.getD (env.envUserVar.getD "Unknown")

def specIdentity (env : Env) (info : Info) : Prop :=
  info.os_name = some env.system ∧
  info.os_version = some (relV env) ∧
  info.os_build = some (exVal "" env.q_version) ∧
  info.os_edition = editionV env ∧
  info.os_full = some (osFullV env) ∧
  info.os_architecture = some (exVal "" env.q_architecture) ∧
  info.hostname = some (exVal "" env.q_hostname) ∧
  info.machine_type = some (exVal "" env.q_machine) ∧
  info.username = some (userV env)

def specUptime (env : Env) (info : Info) : Prop :=
  info.uptime = some (uptimeString (env.now - exVal 0 env.q_bootTime)) ∧
  info.boot_time = some (formatTimestamp (exVal 0 env.q_bootTime))

def specMobo (env : Env) (info : Info) : Prop :=
  info.motherboard = some (get_motherboard_info env)

def cpuInfoDefault : CpuInfoData :=
  ⟨none, none, none, none, none, none, none, none, none⟩

/-- The raw identification string chosen at source lines 101 / 111. -/
def rawProcV (env : Env) : String :=
  if env.hasCpuinfo then (exVal cpuInfoDefault env.q_cpuinfo).brand_raw.getD env.platformProcessor
  else env.platformProcessor

/-- `info['processor']` after the clean-up. -/
def procNameV (env : Env) : String :=
  if rawProcV env ≠ "" then normalizeProc (rawProcV env) else rawProcV env

/-- The value `info['cpu_vendor']` holds after the processor step for any
failure pattern: it is assigned together with the identification source,
before any other fallible call, and the handler does not touch it. -/
def vendorOpt (env : Env) : Option String :=
  if env.hasCpuinfo then
    match env.q_cpuinfo with
    | .ok d => some (d.vendor_id_raw.getD "Unknown")
    | .error _ => none
  else some "Unknown"

/-- `info.get('cpu_vendor', '')` as read by the memory step. -/
def vendorStr (env : Env) : String :=
  (vendorOpt env).getD ""

/-- One of the `cpu_info.get(key, 'Unknown')` fields, present only when
the cpuinfo module is importable. -/
def cpuinfoField (env : Env) (f : CpuInfoData → Option String) : Option String :=
  if env.hasCpuinfo then some ((f (exVal cpuInfoDefault env.q_cpuinfo)).getD "Unknown")
  else none

def specCpu (env : Env) (info : Info) : Prop :=
  info.processor = some (procNameV env) ∧
  info.cpu_vendor = vendorOpt env ∧
  info.cpu_family = cpuinfoField env CpuInfoData.family ∧
  info.cpu_model = cpuinfoField env CpuInfoData.model ∧
  info.cpu_stepping = cpuinfoField env CpuInfoData.stepping ∧
  info.cpu_flags = some (if env.hasCpuinfo then (exVal cpuInfoDefault env.q_cpuinfo).flags.getD [] else []) ∧
  info.cpu_cache_l1 = cpuinfoField env CpuInfoData.l1_data_cache_size ∧
  info.cpu_cache_l2 = cpuinfoField env CpuInfoData.l2_cache_size ∧
  info.cpu_cache_l3 = cpuinfoField env CpuInfoData.l3_cache_size ∧
  info.cpu_cores_physical = some ((exVal none env.q_physCores).getD 0) ∧
  info.cpu_cores_logical = some ((exVal none env.q_logCores).getD 0) ∧
  info.cpu_freq_current = some (freqV env).1 ∧
  info.cpu_freq_max = some (freqV env).2.1 ∧
  info.cpu_freq_min = some (freqV env).2.2 ∧
  info.cpu_usage = some (exVal 0 env.q_cpuPercent) ∧
  info.cpu_usage_per_core = some (exVal [] env.q_perCore) ∧
  info.cpu_times = some (exVal ⟨0, 0, 0⟩ env.q_cpuTimes)

def vmDefault : VmData := ⟨0, 0, 0, 0, 0, 0, 0⟩

def specMem (env : Env) (info : Info) : Prop :=
  info.ram_total_gb = some ((exVal vmDefault env.q_vm).total / gbDiv) ∧
  info.ram_used_gb = some ((exVal vmDefault env.q_vm).used / gbDiv) ∧
  info.ram_available_gb = some ((exVal vmDefault env.q_vm).available / gbDiv) ∧
  info.ram_free_gb = some ((exVal vmDefault env.q_vm).free / gbDiv) ∧
  info.ram_percent = some (exVal vmDefault env.q_vm).percent ∧
  info.ram_cached_gb = some ((exVal vmDefault env.q_vm).cached / gbDiv) ∧
  info.ram_buffers_gb = some ((exVal vmDefault env.q_vm).buffers / gbDiv) ∧
  info.memory_capabilities =
    some (some (get_memory_capabilities ((exVal vmDefault env.q_vm).total / gbDiv) (vendorStr env))) ∧
  info.swap_total_gb = some ((exVal ⟨0, 0, 0, 0⟩ env.q_swap).total / gbDiv) ∧
  info.swap_used_gb = some ((exVal ⟨0, 0, 0, 0⟩ env.q_swap).used / gbDiv) ∧
  info.swap_free_gb = some ((exVal ⟨0, 0, 0, 0⟩ env.q_swap).free / gbDiv) ∧
  info.swap_percent = some (exVal ⟨0, 0, 0, 0⟩ env.q_swap).percent

/-- The completed partition loop of a run whose storage queries all
succeed. -/
def storageRunV (env : Env) : StorageAcc :=
  storageLoop env (exVal [] env.q_partitions) ⟨[], 0, false⟩

def specStorage (env : Env) (info : Info) : Prop :=
  info.storage_devices = some (storageRunV env).devs ∧
  info.storage_capabilities =
    some (some (get_storage_capabilities ((storageRunV env).total / gbDiv)))

/-- `info['gpu_devices']` of a successful graphics step, fallback
included. -/
def gpuListV (env : Env) : List GpuEntry :=
  let lst := if env.hasGputil then (exVal [] env.q_gpus).map mkGpuEntry else []
  if lst.isEmpty then
    match get_gpu_info env with
    | some n => if n ≠ "" ∧ n ≠ "Unknown Graphics Card" then [⟨n, none⟩] else []
    | none => []
  else lst

def specGpu (env : Env) (info : Info) : Prop :=
  info.gpu_devices = some (gpuListV env)

def specNet (env : Env) (info : Info) : Prop :=
  info.network_interfaces =
    some (networkList (exVal [] env.q_ifAddrs) (exVal [] env.q_ifStats) env.nics) ∧
  info.network_stats = some (if env.nics.isEmpty then none else some (sumNics env.nics))

/-- `info['battery']` for every outcome of the battery query (the
handler's `None` included): the step's fields are at their specified
values even when the step itself is the failing one, so this is the full
three-way case split. -/
def batteryV (env : Env) : Option (Option BatteryEntry) :=
  match env.q_battery with
  | .error _ => some none
  | .ok none => none
  | .ok (some b) => some (some (mkBatteryEntry b))

def specBattery (env : Env) (info : Info) : Prop :=
  info.battery = batteryV env

def specThermal (env : Env) (info : Info) : Prop :=
  info.temperatures = some (tempGroups (exVal [] env.q_temps))

def specFans (env : Env) (info : Info) : Prop :=
  info.fans = some (fanGroups (exVal [] env.q_fans))

def specProcs (env : Env) (info : Info) : Prop :=
  info.process_count = some (exVal 0 env.q_pids) ∧
  info.process_running = some (countStatus (exVal [] env.q_statuses1) STATUS_RUNNING) ∧
  info.process_sleeping = some (countStatus (exVal [] env.q_statuses2) STATUS_SLEEPING)

def loadV (env : Env) : Option (Option LoadAvg) :=
  if env.hasGetloadavg then
    match env.q_loadavg with
    | .ok (a, b, c) => some (some ⟨round2 a, round2 b, round2 c⟩)
    | .error _ => some none
  else none

def specLoad (env : Env) (info : Info) : Prop :=
  info.load_average = loadV env

def stepSpec : StepId → Env → Info → Prop
  | .identity, env, info => specIdentity env info
  | .uptime, env, info => specUptime env info
  | .mobo, env, info => specMobo env info
  | .cpu, env, info => specCpu env info
  | .mem, env, info => specMem env info
  | .storage, env, info => specStorage env info
  | .graphics, env, info => specGpu env info
  | .network, env, info => specNet env info
  | .battery, env, info => specBattery env info
  | .thermal, env, info => specThermal env info
  | .fans, env, info => specFans env info
  | .procs, env, info => specProcs env info
  | .loadavg, env, info => specLoad env info

instance stepSpecDecidable (t : StepId) (env : Env) (info : Info) :
    Decidable (stepSpec t env info) := by
  cases t <;>
    simp only [stepSpec, specIdentity, specUptime, specMobo, specCpu, specMem,
      specStorage, specGpu, specNet, specBattery, specThermal, specFans,
      specProcs, specLoad] <;>
    infer_instance

/-- `stepOkQ t env`: none of the OS queries of step `t` raises.  Queries
whose failure the source absorbs inside an inner `try` of the same step
(`win32_edition`, `os.getlogin`, `cpu_freq`, the gpu fallback command)
are not required: their failure is part of the success-path formula. -/
def stepOkQ : StepId → Env → Prop
  | .identity, env =>
    exOk env.q_release = true ∧ exOk env.q_version = true ∧
    exOk env.q_architecture = true ∧ exOk env.q_hostname = true ∧
    exOk env.q_machine = true
  | .uptime, env => exOk env.q_bootTime = true
  | .mobo, _ => True
  | .cpu, env =>
    (env.hasCpuinfo = true → exOk env.q_cpuinfo = true) ∧
    exOk env.q_physCores = true ∧ exOk env.q_logCores = true ∧
    exOk env.q_cpuPercent = true ∧ exOk env.q_perCore = true ∧
    exOk env.q_cpuTimes = true
  | .mem, env => exOk env.q_vm = true ∧ exOk env.q_swap = true
  | .storage, env =>
    exOk env.q_partitions = true ∧ exOk env.q_diskCounters = true ∧
    ∀ p ∈ exVal [] env.q_partitions,
      skipPart env p = false → exOk (env.q_diskUsage p.mountpoint) = true
  | .graphics, env => env.hasGputil = true → exOk env.q_gpus = true
  | .network, env =>
    exOk env.q_ifAddrs = true ∧ exOk env.q_ifStats = true ∧
    exOk env.q_nicPernic = true ∧ exOk env.q_nicTotal = true
  | .battery, env => exOk env.q_battery = true
  | .thermal, env => exOk env.q_temps = true
  | .fans, env => exOk env.q_fans = true
  | .procs, env =>
    exOk env.q_pids = true ∧ exOk env.q_statuses1 = true ∧ exOk env.q_statuses2 = true
  | .loadavg, env => env.hasGetloadavg = true → exOk env.q_loadavg = true

/-- `stepOkA t env`: `stepOkQ` strengthened, for the storage step only, by
the requirement that no enumerated volume reports a zero total — the
data condition under which the percent computation raises
`ZeroDivisionError` past the per-volume handler. -/
def stepOkA (t : StepId) (env : Env) : Prop :=
  stepOkQ t env ∧
  (t = .storage →
    ∀ p ∈ exVal [] env.q_partitions,
      skipPart env p = false → (exVal ⟨1, 0, 0⟩ (env.q_diskUsage p.mountpoint)).total ≠ 0)

instance stepOkQDecidable (t : StepId) (env : Env) : Decidable (stepOkQ t env) := by
  cases t <;> simp only [stepOkQ] <;> infer_instance

instance stepOkADecidable (t : StepId) (env : Env) : Decidable (stepOkA t env) := by
  unfold stepOkA; infer_instance

/-- Every step other than `s` has healthy queries (claim reading). -/
def okOutsideQ (s : StepId) (env : Env) : Prop :=
  ∀ t ∈ allSteps, t ≠ s → stepOkQ t env

/-- Every step other than `s` has healthy queries and, for storage,
no zero-total volume. -/
def okOutsideA (s : StepId) (env : Env) : Prop :=
  ∀ t ∈ allSteps, t ≠ s → stepOkA t env

instance okOutsideQDecidable (s : StepId) (env : Env) : Decidable (okOutsideQ s env) := by
  unfold okOutsideQ; infer_instance

instance okOutsideADecidable (s : StepId) (env : Env) : Decidable (okOutsideA s env) := by
  unfold okOutsideA; infer_instance

/-- Claim C1 formalised exactly as stated: whenever every step other than
`s` has healthy OS queries — `s`'s queries may fail in any pattern —
the run emits exactly one snapshot and every step other than `s` holds
its success values. -/
def claimOneStatement : Prop :=
  ∀ env s, okOutsideQ s env →
    readyList (runWorker env) = [gather_system_info env] ∧
    ∀ t, t ≠ s → stepSpec t env (gather_system_info env)

/-! ## Frame lemmas: each step preserves every other step's fields -/

theorem exOk_eq {e a : Type} (d : a) (x : Except e a) (h : exOk x = true) :
    x = .ok (exVal d x) := by
  cases x with
  | ok v => rfl
  | error _ => simp [exOk] at h

theorem stepIdentity_pres (t : StepId) (env : Env) (i : Info)
    (ht : t ≠ .identity) (h : stepSpec t env i) :
    stepSpec t env (stepIdentity env i) := by
  unfold stepIdentity osExcept
  try dsimp only
  repeat' split
  all_goals cases t <;> first | exact absurd rfl ht | exact h

theorem stepUptime_pres (t : StepId) (env : Env) (i : Info)
    (ht : t ≠ .uptime) (h : stepSpec t env i) :
    stepSpec t env (stepUptime env i) := by
  unfold stepUptime
  repeat' split
  all_goals cases t <;> first | exact absurd rfl ht | exact h

theorem stepMobo_pres (t : StepId) (env : Env) (i : Info)
    (ht : t ≠ .mobo) (h : stepSpec t env i) :
    stepSpec t env (stepMobo env i) := by
  unfold stepMobo
  cases t <;> first | exact absurd rfl ht | exact h

theorem cpuExcept_pres (t : StepId) (env : Env) (j : Info)
    (ht : t ≠ .cpu) (h : stepSpec t env j) :
    stepSpec t env (cpuExcept j) := by
  unfold cpuExcept
  cases t <;> first | exact absurd rfl ht | exact h

set_option maxHeartbeats 1000000 in
theorem stepCpuRest_pres (t : StepId) (env : Env) (j : Info)
    (ht : t ≠ .cpu) (h : stepSpec t env j) :
    stepSpec t env (stepCpuRest env j) := by
  unfold stepCpuRest
  try dsimp only
  repeat' split
  all_goals
    first
    | exact cpuExcept_pres t env _ ht h
    | cases t <;> first | exact absurd rfl ht | exact h

set_option maxHeartbeats 1000000 in
theorem stepCpu_pres (t : StepId) (env : Env) (i : Info)
    (ht : t ≠ .cpu) (h : stepSpec t env i) :
    stepSpec t env (stepCpu env i) := by
  unfold stepCpu
  try dsimp only
  repeat' split
  all_goals
    first
    | exact cpuExcept_pres t env _ ht h
    | · apply stepCpuRest_pres t env _ ht
        cases t <;> first | exact absurd rfl ht | exact h

set_option maxHeartbeats 1000000 in
theorem stepMem_pres (t : StepId) (env : Env) (i : Info)
    (ht : t ≠ .mem) (h : stepSpec t env i) :
    stepSpec t env (stepMem env i) := by
  unfold stepMem memExcept
  try dsimp only
  repeat' split
  all_goals cases t <;> first | exact absurd rfl ht | exact h

set_option maxHeartbeats 1000000 in
theorem stepStorage_pres (t : StepId) (env : Env) (i : Info)
    (ht : t ≠ .storage) (h : stepSpec t env i) :
    stepSpec t env (stepStorage env i) := by
  unfold stepStorage
  try dsimp only
  repeat' split
  all_goals cases t <;> first | exact absurd rfl ht | exact h

set_option maxHeartbeats 1000000 in
theorem stepGpu_pres (t : StepId) (env : Env) (i : Info)
    (ht : t ≠ .graphics) (h : stepSpec t env i) :
    stepSpec t env (stepGpu env i) := by
  unfold stepGpu gpuFallback
  try dsimp only
  repeat' split
  all_goals cases t <;> first | exact absurd rfl ht | exact h

set_option maxHeartbeats 1000000 in
theorem stepNet_pres (t : StepId) (env : Env) (i : Info)
    (ht : t ≠ .network) (h : stepSpec t env i) :
    stepSpec t env (stepNet env i) := by
  unfold stepNet
  try dsimp only
  repeat' split
  all_goals cases t <;> first | exact absurd rfl ht | exact h

theorem stepBattery_pres (t : StepId) (env : Env) (i : Info)
    (ht : t ≠ .battery) (h : stepSpec t env i) :
    stepSpec t env (stepBattery env i) := by
  unfold stepBattery
  try dsimp only
  repeat' split
  all_goals cases t <;> first | exact absurd rfl ht | exact h

theorem stepThermal_pres (t : StepId) (env : Env) (i : Info)
    (ht : t ≠ .thermal) (h : stepSpec t env i) :
    stepSpec t env (stepThermal env i) := by
  unfold stepThermal
  try dsimp only
  repeat' split
  all_goals cases t <;> first | exact absurd rfl ht | exact h

theorem stepFans_pres (t : StepId) (env : Env) (i : Info)
    (ht : t ≠ .fans) (h : stepSpec t env i) :
    stepSpec t env (stepFans env i) := by
  unfold stepFans
  try dsimp only
  repeat' split
  all_goals cases t <;> first | exact absurd rfl ht | exact h

set_option maxHeartbeats 1000000 in
theorem stepProcs_pres (t : StepId) (env : Env) (i : Info)
    (ht : t ≠ .procs) (h : stepSpec t env i) :
    stepSpec t env (stepProcs env i) := by
  unfold stepProcs procExcept
  try dsimp only
  repeat' split
  all_goals cases t <;> first | exact absurd rfl ht | exact h

theorem stepLoad_pres (t : StepId) (env : Env) (i : Info)
    (ht : t ≠ .loadavg) (h : stepSpec t env i) :
    stepSpec t env (stepLoad env i) := by
  unfold stepLoad
  try dsimp only
  repeat' split
  all_goals cases t <;> first | exact absurd rfl ht | exact h

/-! ## Success lemmas: a step with healthy queries hits its success path -/

set_option maxHeartbeats 1000000 in
theorem stepIdentity_spec (env : Env) (i : Info) (hok : stepOkQ .identity env)
    (hpre : i.os_edition = none) : stepSpec .identity env (stepIdentity env i) := by
  obtain ⟨h1, h2, h3, h4, h5⟩ := hok
  unfold stepIdentity osExcept
  rw [exOk_eq "" env.q_release h1, exOk_eq "" env.q_version h2,
      exOk_eq "" env.q_architecture h3, exOk_eq "" env.q_hostname h4,
      exOk_eq "" env.q_machine h5]
  dsimp only [stepSpec]
  unfold specIdentity editionV osFullV userV relV
  try dsimp only
  repeat' split
  all_goals simp_all [exVal, exOpt]

theorem stepUptime_spec (env : Env) (i : Info) (hok : stepOkQ .uptime env) :
    stepSpec .uptime env (stepUptime env i) := by
  unfold stepUptime
  rw [exOk_eq 0 env.q_bootTime hok]
  exact ⟨rfl, rfl⟩

theorem stepMobo_spec (env : Env) (i : Info) :
    stepSpec .mobo env (stepMobo env i) := rfl

set_option maxHeartbeats 2000000 in
theorem stepCpu_spec (env : Env) (i : Info) (hok : stepOkQ .cpu env)
    (hpre : i.cpu_family = none ∧ i.cpu_model = none ∧ i.cpu_stepping = none ∧
            i.cpu_cache_l1 = none ∧ i.cpu_cache_l2 = none ∧ i.cpu_cache_l3 = none) :
    stepSpec .cpu env (stepCpu env i) := by
  obtain ⟨hci, hpc, hlc, hcp, hpcu, hct⟩ := hok
  obtain ⟨hf1, hf2, hf3, hf4, hf5, hf6⟩ := hpre
  unfold stepCpu stepCpuRest
  rw [exOk_eq none env.q_physCores hpc, exOk_eq none env.q_logCores hlc,
      exOk_eq 0 env.q_cpuPercent hcp, exOk_eq [] env.q_perCore hpcu,
      exOk_eq ⟨0, 0, 0⟩ env.q_cpuTimes hct]
  dsimp only [stepSpec]
  cases hc : env.hasCpuinfo with
  | false =>
    simp only [hc, Bool.false_eq_true, if_false]
    unfold specCpu procNameV rawProcV vendorOpt cpuinfoField procClean
    simp only [hc, Bool.false_eq_true, if_false]
    try dsimp only
    repeat' split
    all_goals simp_all [exVal, exOk]
  | true =>
    rw [exOk_eq cpuInfoDefault env.q_cpuinfo (hci hc)]
    simp only [hc, if_true]
    unfold specCpu procNameV rawProcV vendorOpt cpuinfoField procClean
    simp only [hc, if_true]
    try dsimp only
    repeat' split
    all_goals simp_all [exVal, exOk]

theorem stepMem_spec (env : Env) (i : Info) (hok : stepOkQ .mem env)
    (hpre : i.cpu_vendor = vendorOpt env) :
    stepSpec .mem env (stepMem env i) := by
  obtain ⟨hv, hs⟩ := hok
  unfold stepMem
  rw [exOk_eq vmDefault env.q_vm hv, exOk_eq ⟨0, 0, 0, 0⟩ env.q_swap hs]
  dsimp only [stepSpec]
  unfold specMem vendorStr
  rw [hpre]
  try dsimp only
  exact ⟨rfl, rfl, rfl, rfl, rfl, rfl, rfl, rfl, rfl, rfl, rfl, rfl⟩

theorem storageLoop_ok (env : Env) (parts : List PartitionData)
    (hd : exOk env.q_diskCounters = true)
    (hu : ∀ p ∈ parts, skipPart env p = false → exOk (env.q_diskUsage p.mountpoint) = true)
    (hz : ∀ p ∈ parts, skipPart env p = false →
          (exVal ⟨1, 0, 0⟩ (env.q_diskUsage p.mountpoint)).total ≠ 0) :
    ∀ acc, acc.aborted = false → (storageLoop env parts acc).aborted = false := by
  induction parts with
  | nil => intro acc ha; simpa [storageLoop] using ha
  | cons p rest ih =>
    intro acc ha
    have hu' : ∀ q ∈ rest, skipPart env q = false → exOk (env.q_diskUsage q.mountpoint) = true :=
      fun q hq => hu q (List.mem_cons_of_mem _ hq)
    have hz' : ∀ q ∈ rest, skipPart env q = false →
        (exVal ⟨1, 0, 0⟩ (env.q_diskUsage q.mountpoint)).total ≠ 0 :=
      fun q hq => hz q (List.mem_cons_of_mem _ hq)
    unfold storageLoop
    by_cases hsk : skipPart env p = true
    · simp only [hsk, if_true]
      exact ih hu' hz' acc ha
    · have hsk' : skipPart env p = false := by simpa using hsk
      simp only [hsk']
      have h1 := hu p (List.mem_cons_self _ _) hsk'
      have h2 := hz p (List.mem_cons_self _ _) hsk'
      rw [exOk_eq ⟨1, 0, 0⟩ (env.q_diskUsage p.mountpoint) h1,
          exOk_eq [] env.q_diskCounters hd]
      dsimp only
      rw [if_neg h2]
      simp only [Bool.false_eq_true, if_false]
      exact ih hu' hz' _ rfl

theorem stepStorage_spec (env : Env) (i : Info) (hok : stepOkA .storage env) :
    stepSpec .storage env (stepStorage env i) := by
  obtain ⟨⟨hp, hd, hu⟩, hzi⟩ := hok
  have hz := hzi rfl
  unfold stepStorage
  rw [exOk_eq [] env.q_partitions hp]
  dsimp only
  have hab := storageLoop_ok env (exVal [] env.q_partitions) hd hu hz ⟨[], 0, false⟩ rfl
  rw [hab]
  simp only [Bool.false_eq_true, if_false]
  dsimp only [stepSpec]
  unfold specStorage storageRunV
  exact ⟨rfl, rfl⟩

set_option maxHeartbeats 1000000 in
theorem stepGpu_spec (env : Env) (i : Info) (hok : stepOkQ .graphics env) :
    stepSpec .graphics env (stepGpu env i) := by
  unfold stepGpu gpuFallback
  dsimp only [stepSpec]
  unfold specGpu gpuListV
  cases hg : env.hasGputil with
  | false =>
    simp only [hg]
    try dsimp only
    cases hgi : get_gpu_info env <;> repeat' split
    all_goals simp_all [exVal, exOk]
  | true =>
    rw [exOk_eq [] env.q_gpus (hok hg)]
    simp only [hg]
    try dsimp only
    cases hgi : get_gpu_info env <;> repeat' split
    all_goals simp_all [exVal, exOk]

theorem stepNet_spec (env : Env) (i : Info) (hok : stepOkQ .network env) :
    stepSpec .network env (stepNet env i) := by
  obtain ⟨h1, h2, h3, h4⟩ := hok
  unfold stepNet
  rw [exOk_eq [] env.q_ifAddrs h1, exOk_eq [] env.q_ifStats h2,
      exOk_eq () env.q_nicPernic h3, exOk_eq () env.q_nicTotal h4]
  dsimp only [stepSpec]
  unfold specNet
  cases hn : env.nics.isEmpty with
  | false =>
    simp only [hn, Bool.false_eq_true, if_false]
    refine ⟨?_, ?_⟩ <;> first | rfl | trivial
  | true =>
    simp only [hn, if_true]
    refine ⟨?_, ?_⟩ <;> first | rfl | trivial

theorem stepBattery_spec (env : Env) (i : Info) (hpre : i.battery = none) :
    stepSpec .battery env (stepBattery env i) := by
  unfold stepBattery
  dsimp only [stepSpec]
  unfold specBattery batteryV
  cases hb : env.q_battery with
  | error e => rfl
  | ok ob => cases ob with
    | none => exact hpre
    | some b => rfl

theorem stepThermal_spec (env : Env) (i : Info) (hok : stepOkQ .thermal env) :
    stepSpec .thermal env (stepThermal env i) := by
  unfold stepThermal
  rw [exOk_eq [] env.q_temps hok]
  rfl

theorem stepFans_spec (env : Env) (i : Info) (hok : stepOkQ .fans env) :
    stepSpec .fans env (stepFans env i) := by
  unfold stepFans
  rw [exOk_eq [] env.q_fans hok]
  rfl

theorem stepProcs_spec (env : Env) (i : Info) (hok : stepOkQ .procs env) :
    stepSpec .procs env (stepProcs env i) := by
  obtain ⟨h1, h2, h3⟩ := hok
  unfold stepProcs
  rw [exOk_eq 0 env.q_pids h1, exOk_eq [] env.q_statuses1 h2, exOk_eq [] env.q_statuses2 h3]
  exact ⟨rfl, rfl, rfl⟩

theorem stepLoad_spec (env : Env) (i : Info) (hpre : i.load_average = none) :
    stepSpec .loadavg env (stepLoad env i) := by
  unfold stepLoad
  dsimp only [stepSpec]
  unfold specLoad loadV
  cases hg : env.hasGetloadavg with
  | false => simp only [hg, Bool.false_eq_true, if_false]; exact hpre
  | true =>
    simp only [hg, if_true]
    cases hl : env.q_loadavg with
    | error e => rfl
    | ok v => obtain ⟨a, b, c⟩ := v; rfl

/-! ## Single-field frame facts feeding the cross-step preconditions -/

theorem stepIdentity_keepsPre (env : Env) (i : Info) :
    (stepIdentity env i).battery = i.battery ∧
    (stepIdentity env i).load_average = i.load_average ∧
    (stepIdentity env i).cpu_vendor = i.cpu_vendor ∧
    (stepIdentity env i).cpu_family = i.cpu_family ∧
    (stepIdentity env i).cpu_model = i.cpu_model ∧
    (stepIdentity env i).cpu_stepping = i.cpu_stepping ∧
    (stepIdentity env i).cpu_cache_l1 = i.cpu_cache_l1 ∧
    (stepIdentity env i).cpu_cache_l2 = i.cpu_cache_l2 ∧
    (stepIdentity env i).cpu_cache_l3 = i.cpu_cache_l3 := by
  unfold stepIdentity osExcept
  try dsimp only
  repeat' split
  all_goals exact ⟨rfl, rfl, rfl, rfl, rfl, rfl, rfl, rfl, rfl⟩

theorem stepUptime_keepsPre (env : Env) (i : Info) :
    (stepUptime env i).battery = i.battery ∧
    (stepUptime env i).load_average = i.load_average ∧
    (stepUptime env i).cpu_vendor = i.cpu_vendor ∧
    (stepUptime env i).cpu_family = i.cpu_family ∧
    (stepUptime env i).cpu_model = i.cpu_model ∧
    (stepUptime env i).cpu_stepping = i.cpu_stepping ∧
    (stepUptime env i).cpu_cache_l1 = i.cpu_cache_l1 ∧
    (stepUptime env i).cpu_cache_l2 = i.cpu_cache_l2 ∧
    (stepUptime env i).cpu_cache_l3 = i.cpu_cache_l3 := by
  unfold stepUptime
  repeat' split
  all_goals exact ⟨rfl, rfl, rfl, rfl, rfl, rfl, rfl, rfl, rfl⟩

theorem stepMobo_keepsPre (env : Env) (i : Info) :
    (stepMobo env i).battery = i.battery ∧
    (stepMobo env i).load_average = i.load_average ∧
    (stepMobo env i).cpu_vendor = i.cpu_vendor ∧
    (stepMobo env i).cpu_family = i.cpu_family ∧
    (stepMobo env i).cpu_model = i.cpu_model ∧
    (stepMobo env i).cpu_stepping = i.cpu_stepping ∧
    (stepMobo env i).cpu_cache_l1 = i.cpu_cache_l1 ∧
    (stepMobo env i).cpu_cache_l2 = i.cpu_cache_l2 ∧
    (stepMobo env i).cpu_cache_l3 = i.cpu_cache_l3 := by
  exact ⟨rfl, rfl, rfl, rfl, rfl, rfl, rfl, rfl, rfl⟩

theorem stepCpu_keeps (env : Env) (i : Info) :
    (stepCpu env i).battery = i.battery ∧
    (stepCpu env i).load_average = i.load_average := by
  unfold stepCpu stepCpuRest cpuExcept
  try dsimp only
  repeat' split
  all_goals exact ⟨rfl, rfl⟩

theorem stepMem_keeps (env : Env) (i : Info) :
    (stepMem env i).battery = i.battery ∧
    (stepMem env i).load_average = i.load_average := by
  unfold stepMem memExcept
  try dsimp only
  repeat' split
  all_goals exact ⟨rfl, rfl⟩

theorem stepStorage_keeps (env : Env) (i : Info) :
    (stepStorage env i).battery = i.battery ∧
    (stepStorage env i).load_average = i.load_average := by
  unfold stepStorage
  try dsimp only
  repeat' split
  all_goals exact ⟨rfl, rfl⟩

theorem stepGpu_keeps (env : Env) (i : Info) :
    (stepGpu env i).battery = i.battery ∧
    (stepGpu env i).load_average = i.load_average := by
  unfold stepGpu gpuFallback
  try dsimp only
  repeat' split
  all_goals exact ⟨rfl, rfl⟩

theorem stepNet_keeps (env : Env) (i : Info) :
    (stepNet env i).battery = i.battery ∧
    (stepNet env i).load_average = i.load_average := by
  unfold stepNet
  try dsimp only
  repeat' split
  all_goals exact ⟨rfl, rfl⟩

theorem stepBattery_keepsLoad (env : Env) (i : Info) :
    (stepBattery env i).load_average = i.load_average := by
  unfold stepBattery
  repeat' split
  all_goals rfl

theorem stepThermal_keepsLoad (env : Env) (i : Info) :
    (stepThermal env i).load_average = i.load_average := by
  unfold stepThermal
  repeat' split
  all_goals rfl

theorem stepFans_keepsLoad (env : Env) (i : Info) :
    (stepFans env i).load_average = i.load_average := by
  unfold stepFans
  repeat' split
  all_goals rfl

theorem stepProcs_keepsLoad (env : Env) (i : Info) :
    (stepProcs env i).load_average = i.load_average := by
  unfold stepProcs procExcept
  repeat' split
  all_goals rfl

/-- The vendor string survives every failure pattern of the processor
step: it is written together with the identification lookup (or the
`'Unknown'` constant when the cpuinfo module is absent) and the handler
leaves it alone. -/
theorem stepCpu_vendor (env : Env) (i : Info) (hpre : i.cpu_vendor = none) :
    (stepCpu env i).cpu_vendor = vendorOpt env := by
  unfold stepCpu stepCpuRest cpuExcept vendorOpt
  try dsimp only
  repeat' split
  all_goals simp_all

/-- Any step whose own queries are healthy (and, for storage, whose
volumes report nonzero totals) holds its success values in the final
snapshot, whatever happens to every other step. -/
theorem gather_step_spec (env : Env) (t : StepId) (hok : stepOkA t env) :
    stepSpec t env (gather_system_info env) := by
  obtain ⟨hq, hst⟩ := hok
  unfold gather_system_info
  cases t with
  | identity =>
    exact stepLoad_pres _ env _ (by decide) (stepProcs_pres _ env _ (by decide)
      (stepFans_pres _ env _ (by decide) (stepThermal_pres _ env _ (by decide)
      (stepBattery_pres _ env _ (by decide) (stepNet_pres _ env _ (by decide)
      (stepGpu_pres _ env _ (by decide) (stepStorage_pres _ env _ (by decide)
      (stepMem_pres _ env _ (by decide) (stepCpu_pres _ env _ (by decide)
      (stepMobo_pres _ env _ (by decide) (stepUptime_pres _ env _ (by decide)
      (stepIdentity_spec env Info.empty hq rfl))))))))))))
  | uptime =>
    exact stepLoad_pres _ env _ (by decide) (stepProcs_pres _ env _ (by decide)
      (stepFans_pres _ env _ (by decide) (stepThermal_pres _ env _ (by decide)
      (stepBattery_pres _ env _ (by decide) (stepNet_pres _ env _ (by decide)
      (stepGpu_pres _ env _ (by decide) (stepStorage_pres _ env _ (by decide)
      (stepMem_pres _ env _ (by decide) (stepCpu_pres _ env _ (by decide)
      (stepMobo_pres _ env _ (by decide)
      (stepUptime_spec env _ hq)))))))))))
  | mobo =>
    exact stepLoad_pres _ env _ (by decide) (stepProcs_pres _ env _ (by decide)
      (stepFans_pres _ env _ (by decide) (stepThermal_pres _ env _ (by decide)
      (stepBattery_pres _ env _ (by decide) (stepNet_pres _ env _ (by decide)
      (stepGpu_pres _ env _ (by decide) (stepStorage_pres _ env _ (by decide)
      (stepMem_pres _ env _ (by decide) (stepCpu_pres _ env _ (by decide)
      (stepMobo_spec env _))))))))))
  | cpu =>
    obtain ⟨_, _, _, f1a, m1a, s1a, c1a, c1b, c1c⟩ := stepIdentity_keepsPre env Info.empty
    obtain ⟨_, _, _, f2a, m2a, s2a, c2a, c2b, c2c⟩ :=
      stepUptime_keepsPre env (stepIdentity env Info.empty)
    obtain ⟨_, _, _, f3a, m3a, s3a, c3a, c3b, c3c⟩ :=
      stepMobo_keepsPre env (stepUptime env (stepIdentity env Info.empty))
    refine stepLoad_pres _ env _ (by decide) (stepProcs_pres _ env _ (by decide)
      (stepFans_pres _ env _ (by decide) (stepThermal_pres _ env _ (by decide)
      (stepBattery_pres _ env _ (by decide) (stepNet_pres _ env _ (by decide)
      (stepGpu_pres _ env _ (by decide) (stepStorage_pres _ env _ (by decide)
      (stepMem_pres _ env _ (by decide)
      (stepCpu_spec env _ hq ⟨?_, ?_, ?_, ?_, ?_, ?_⟩)))))))))
    · exact f3a.trans (f2a.trans f1a)
    · exact m3a.trans (m2a.trans m1a)
    · exact s3a.trans (s2a.trans s1a)
    · exact c3a.trans (c2a.trans c1a)
    · exact c3b.trans (c2b.trans c1b)
    · exact c3c.trans (c2c.trans c1c)
  | mem =>
    obtain ⟨_, _, v1, _, _, _, _, _, _⟩ := stepIdentity_keepsPre env Info.empty
    obtain ⟨_, _, v2, _, _, _, _, _, _⟩ :=
      stepUptime_keepsPre env (stepIdentity env Info.empty)
    obtain ⟨_, _, v3, _, _, _, _, _, _⟩ :=
      stepMobo_keepsPre env (stepUptime env (stepIdentity env Info.empty))
    refine stepLoad_pres _ env _ (by decide) (stepProcs_pres _ env _ (by decide)
      (stepFans_pres _ env _ (by decide) (stepThermal_pres _ env _ (by decide)
      (stepBattery_pres _ env _ (by decide) (stepNet_pres _ env _ (by decide)
      (stepGpu_pres _ env _ (by decide) (stepStorage_pres _ env _ (by decide)
      (stepMem_spec env _ hq ?_))))))))
    exact stepCpu_vendor env _ (v3.trans (v2.trans v1))
  | storage =>
    exact stepLoad_pres _ env _ (by decide) (stepProcs_pres _ env _ (by decide)
      (stepFans_pres _ env _ (by decide) (stepThermal_pres _ env _ (by decide)
      (stepBattery_pres _ env _ (by decide) (stepNet_pres _ env _ (by decide)
      (stepGpu_pres _ env _ (by decide)
      (stepStorage_spec env _ ⟨hq, hst⟩)))))))
  | graphics =>
    exact stepLoad_pres _ env _ (by decide) (stepProcs_pres _ env _ (by decide)
      (stepFans_pres _ env _ (by decide) (stepThermal_pres _ env _ (by decide)
      (stepBattery_pres _ env _ (by decide) (stepNet_pres _ env _ (by decide)
      (stepGpu_spec env _ hq))))))
  | network =>
    exact stepLoad_pres _ env _ (by decide) (stepProcs_pres _ env _ (by decide)
      (stepFans_pres _ env _ (by decide) (stepThermal_pres _ env _ (by decide)
      (stepBattery_pres _ env _ (by decide)
      (stepNet_spec env _ hq)))))
  | battery =>
    obtain ⟨b1, _⟩ := stepIdentity_keepsPre env Info.empty
    obtain ⟨b2, _⟩ := stepUptime_keepsPre env (stepIdentity env Info.empty)
    obtain ⟨b3, _⟩ := stepMobo_keepsPre env (stepUptime env (stepIdentity env Info.empty))
    obtain ⟨b4, _⟩ := stepCpu_keeps env
      (stepMobo env (stepUptime env (stepIdentity env Info.empty)))
    obtain ⟨b5, _⟩ := stepMem_keeps env (stepCpu env
      (stepMobo env (stepUptime env (stepIdentity env Info.empty))))
    obtain ⟨b6, _⟩ := stepStorage_keeps env (stepMem env (stepCpu env
      (stepMobo env (stepUptime env (stepIdentity env Info.empty)))))
    obtain ⟨b7, _⟩ := stepGpu_keeps env (stepStorage env (stepMem env (stepCpu env
      (stepMobo env (stepUptime env (stepIdentity env Info.empty))))))
    obtain ⟨b8, _⟩ := stepNet_keeps env (stepGpu env (stepStorage env (stepMem env
      (stepCpu env (stepMobo env (stepUptime env (stepIdentity env Info.empty)))))))
    refine stepLoad_pres _ env _ (by decide) (stepProcs_pres _ env _ (by decide)
      (stepFans_pres _ env _ (by decide) (stepThermal_pres _ env _ (by decide)
      (stepBattery_spec env _ ?_))))
    exact b8.trans (b7.trans (b6.trans (b5.trans (b4.trans (b3.trans (b2.trans b1))))))
  | thermal =>
    exact stepLoad_pres _ env _ (by decide) (stepProcs_pres _ env _ (by decide)
      (stepFans_pres _ env _ (by decide)
      (stepThermal_spec env _ hq)))
  | fans =>
    exact stepLoad_pres _ env _ (by decide) (stepProcs_pres _ env _ (by decide)
      (stepFans_spec env _ hq))
  | procs =>
    exact stepLoad_pres _ env _ (by decide)
      (stepProcs_spec env _ hq)
  | loadavg =>
    obtain ⟨_, l1, _⟩ := stepIdentity_keepsPre env Info.empty
    obtain ⟨_, l2, _⟩ := stepUptime_keepsPre env (stepIdentity env Info.empty)
    obtain ⟨_, l3, _⟩ := stepMobo_keepsPre env (stepUptime env (stepIdentity env Info.empty))
    obtain ⟨_, l4⟩ := stepCpu_keeps env
      (stepMobo env (stepUptime env (stepIdentity env Info.empty)))
    obtain ⟨_, l5⟩ := stepMem_keeps env (stepCpu env
      (stepMobo env (stepUptime env (stepIdentity env Info.empty))))
    obtain ⟨_, l6⟩ := stepStorage_keeps env (stepMem env (stepCpu env
      (stepMobo env (stepUptime env (stepIdentity env Info.empty)))))
    obtain ⟨_, l7⟩ := stepGpu_keeps env (stepStorage env (stepMem env (stepCpu env
      (stepMobo env (stepUptime env (stepIdentity env Info.empty))))))
    obtain ⟨_, l8⟩ := stepNet_keeps env (stepGpu env (stepStorage env (stepMem env
      (stepCpu env (stepMobo env (stepUptime env (stepIdentity env Info.empty)))))))
    have l9 := stepBattery_keepsLoad env (stepNet env (stepGpu env (stepStorage env
      (stepMem env (stepCpu env (stepMobo env (stepUptime env
      (stepIdentity env Info.empty))))))))
    have l10 := stepThermal_keepsLoad env (stepBattery env (stepNet env (stepGpu env
      (stepStorage env (stepMem env (stepCpu env (stepMobo env (stepUptime env
      (stepIdentity env Info.empty)))))))))
    have l11 := stepFans_keepsLoad env (stepThermal env (stepBattery env (stepNet env
      (stepGpu env (stepStorage env (stepMem env (stepCpu env (stepMobo env
      (stepUptime env (stepIdentity env Info.empty))))))))))
    have l12 := stepProcs_keepsLoad env (stepFans env (stepThermal env (stepBattery env
      (stepNet env (stepGpu env (stepStorage env (stepMem env (stepCpu env
      (stepMobo env (stepUptime env (stepIdentity env Info.empty)))))))))))
    refine stepLoad_spec env _ ?_
    exact l12.trans (l11.trans (l10.trans (l9.trans (l8.trans (l7.trans (l6.trans
      (l5.trans (l4.trans (l3.trans (l2.trans l1))))))))))

/-! ## Late-step frame lemmas for the network and battery fields -/

theorem stepBattery_keepsC6 (env : Env) (i : Info) :
    (stepBattery env i).network_interfaces = i.network_interfaces ∧
    (stepBattery env i).network_stats = i.network_stats := by
  unfold stepBattery
  repeat' split
  all_goals exact ⟨rfl, rfl⟩

theorem stepThermal_keepsC6 (env : Env) (i : Info) :
    (stepThermal env i).network_interfaces = i.network_interfaces ∧
    (stepThermal env i).network_stats = i.network_stats ∧
    (stepThermal env i).battery = i.battery := by
  unfold stepThermal
  repeat' split
  all_goals exact ⟨rfl, rfl, rfl⟩

theorem stepFans_keepsC6 (env : Env) (i : Info) :
    (stepFans env i).network_interfaces = i.network_interfaces ∧
    (stepFans env i).network_stats = i.network_stats ∧
    (stepFans env i).battery = i.battery := by
  unfold stepFans
  repeat' split
  all_goals exact ⟨rfl, rfl, rfl⟩

theorem stepProcs_keepsC6 (env : Env) (i : Info) :
    (stepProcs env i).network_interfaces = i.network_interfaces ∧
    (stepProcs env i).network_stats = i.network_stats ∧
    (stepProcs env i).battery = i.battery := by
  unfold stepProcs procExcept
  repeat' split
  all_goals exact ⟨rfl, rfl, rfl⟩

theorem stepLoad_keepsC6 (env : Env) (i : Info) :
    (stepLoad env i).network_interfaces = i.network_interfaces ∧
    (stepLoad env i).network_stats = i.network_stats ∧
    (stepLoad env i).battery = i.battery := by
  unfold stepLoad
  repeat' split
  all_goals exact ⟨rfl, rfl, rfl⟩

/-- The battery field of the finished snapshot is exactly `batteryV env`:
key absent when the query succeeds reporting no battery, key present with
`None` when the query raises, the full dictionary otherwise. -/
theorem gather_battery (env : Env) :
    (gather_system_info env).battery = batteryV env := by
  obtain ⟨b1, _⟩ := stepIdentity_keepsPre env Info.empty
  obtain ⟨b2, _⟩ := stepUptime_keepsPre env (stepIdentity env Info.empty)
  obtain ⟨b3, _⟩ := stepMobo_keepsPre env (stepUptime env (stepIdentity env Info.empty))
  obtain ⟨b4, _⟩ := stepCpu_keeps env
    (stepMobo env (stepUptime env (stepIdentity env Info.empty)))
  obtain ⟨b5, _⟩ := stepMem_keeps env (stepCpu env
    (stepMobo env (stepUptime env (stepIdentity env Info.empty))))
  obtain ⟨b6, _⟩ := stepStorage_keeps env (stepMem env (stepCpu env
    (stepMobo env (stepUptime env (stepIdentity env Info.empty)))))
  obtain ⟨b7, _⟩ := stepGpu_keeps env (stepStorage env (stepMem env (stepCpu env
    (stepMobo env (stepUptime env (stepIdentity env Info.empty))))))
  obtain ⟨b8, _⟩ := stepNet_keeps env (stepGpu env (stepStorage env (stepMem env
    (stepCpu env (stepMobo env (stepUptime env (stepIdentity env Info.empty)))))))
  have hpre : (stepNet env (stepGpu env (stepStorage env (stepMem env (stepCpu env
      (stepMobo env (stepUptime env (stepIdentity env Info.empty)))))))).battery = none :=
    b8.trans (b7.trans (b6.trans (b5.trans (b4.trans (b3.trans (b2.trans b1))))))
  have h9 := stepBattery_spec env _ hpre
  have k10 := stepThermal_keepsC6 env (stepBattery env (stepNet env (stepGpu env
    (stepStorage env (stepMem env (stepCpu env (stepMobo env (stepUptime env
    (stepIdentity env Info.empty)))))))))
  have k11 := stepFans_keepsC6 env (stepThermal env (stepBattery env (stepNet env
    (stepGpu env (stepStorage env (stepMem env (stepCpu env (stepMobo env
    (stepUptime env (stepIdentity env Info.empty))))))))))
  have k12 := stepProcs_keepsC6 env (stepFans env (stepThermal env (stepBattery env
    (stepNet env (stepGpu env (stepStorage env (stepMem env (stepCpu env
    (stepMobo env (stepUptime env (stepIdentity env Info.empty)))))))))))
  have k13 := stepLoad_keepsC6 env (stepProcs env (stepFans env (stepThermal env
    (stepBattery env (stepNet env (stepGpu env (stepStorage env (stepMem env
    (stepCpu env (stepMobo env (stepUptime env (stepIdentity env Info.empty))))))))))))
  unfold gather_system_info
  exact k13.2.2.trans (k12.2.2.trans (k11.2.2.trans (k10.2.2.trans h9)))

/-! ## Membership facts for the interface loop (claim C6) -/

theorem networkList_mem (al : List (String × List AddrData))
    (sl : List (String × IfStatsData)) (nics : List (String × NicRaw)) :
    ∀ x ∈ networkList al sl nics, nameExcluded x.name = false ∧ x.addresses ≠ [] := by
  intro x hx
  unfold networkList at hx
  rw [List.mem_filterMap] at hx
  obtain ⟨e, _, hfe⟩ := hx
  by_cases hex : nameExcluded e.1 = true
  · simp [hex] at hfe
  · have hex' : nameExcluded e.1 = false := by simpa using hex
    rw [hex'] at hfe
    simp only [Bool.false_eq_true, if_false] at hfe
    cases hl : lookupAssoc sl e.1 with
    | none => rw [hl] at hfe; simp at hfe
    | some st =>
      rw [hl] at hfe
      dsimp only at hfe
      by_cases hemp : (buildIface e.1 e.2 st nics).addresses.isEmpty = true
      · simp [hemp] at hfe
      · simp only [hemp, Bool.false_eq_true, if_false, Option.some.injEq] at hfe
        subst hfe
        refine ⟨hex', ?_⟩
        intro hnil
        exact hemp (by rw [hnil]; rfl)

theorem stepNet_mem (env : Env) (i : Info) :
    ∀ nif ∈ ((stepNet env i).network_interfaces).getD [],
      nameExcluded nif.name = false ∧ nif.addresses ≠ [] := by
  unfold stepNet
  try dsimp only
  repeat' split
  all_goals intro nif h
  all_goals first
    | exact networkList_mem _ _ _ nif h
    | simp at h

/-! ## Concrete environments for witnesses and counterexamples -/

/-- A healthy Linux host: every query succeeds. -/
def envAll : Env :=
  { system := "Linux"
    q_release := .ok "6.1.0"
    q_version := .ok "#1 SMP Tue"
    q_edition := .ok none
    q_architecture := .ok "64bit"
    q_hostname := .ok "host1"
    q_machine := .ok "x86_64"
    q_getlogin := .ok "alice"
    envUsername := none
    envUserVar := some "alice"
    now := 1000000
    q_bootTime := .ok 913600
    q_moboCmd := .ok ⟨0, "Manufacturer: FooBoards\nProduct Name: F1\nVersion: 1.0"⟩
    hasCpuinfo := true
    q_cpuinfo := .ok
      ⟨some "Intel Core i7-9700K CPU @ 3.60GHz", some "GenuineIntel", some "6",
       some "158", some "13", some ["sse2", "avx2"], some "32 KB", some "256 KB",
       some "12 MB"⟩
    platformProcessor := "x86_64"
    q_physCores := .ok (some 8)
    q_logCores := .ok (some 8)
    q_freq := .ok (some ⟨3600, 4900, 800⟩)
    q_cpuPercent := .ok 7
    q_perCore := .ok [5, 9]
    q_cpuTimes := .ok ⟨100, 50, 900⟩
    q_vm := .ok ⟨20 * 1024 ^ 3, 8 * 1024 ^ 3, 12 * 1024 ^ 3, 10 * 1024 ^ 3, 40,
                 1024 ^ 3, 1024 ^ 3⟩
    q_swap := .ok ⟨2 * 1024 ^ 3, 0, 2 * 1024 ^ 3, 0⟩
    q_partitions := .ok [⟨"/dev/sda1", "/", "ext4", "rw"⟩,
                         ⟨"/dev/sdb1", "/data", "ext4", "rw"⟩]
    q_diskUsage := fun m =>
      if m = "/" then .ok ⟨500 * 1024 ^ 3, 250 * 1024 ^ 3, 250 * 1024 ^ 3⟩
      else if m = "/data" then .ok ⟨250 * 1024 ^ 3, 50 * 1024 ^ 3, 200 * 1024 ^ 3⟩
      else .error .permOs
    q_diskCounters := .ok [("sda1", ⟨10 * 1024 ^ 3, 5 * 1024 ^ 3, 100, 50⟩)]
    hasGputil := false
    q_gpus := .ok []
    q_gpuCmd := .ok ⟨0, "00:02.0 VGA compatible controller: AMD Radeon (rev 06)"⟩
    q_ifAddrs := .ok
      [("eth0", [⟨"AddressFamily.AF_INET", "192.168.1.5", some "255.255.255.0", none⟩,
                 ⟨"AddressFamily.AF_PACKET", "aa:bb:cc:dd:ee:ff", none, none⟩]),
       ("lo", [⟨"AddressFamily.AF_INET", "127.0.0.1", some "255.0.0.0", none⟩]),
       ("VirtualBox Host-Only", [⟨"AddressFamily.AF_INET", "192.168.56.1",
                                  some "255.255.255.0", none⟩]),
       ("wlan0", [])]
    q_ifStats := .ok [("eth0", ⟨true, 1000, 1500⟩), ("wlan0", ⟨true, 100, 1500⟩),
                      ("lo", ⟨true, 0, 65536⟩)]
    nics := [("eth0", ⟨3 * 1024 ^ 2, 7 * 1024 ^ 2, 100, 200, 0, 0, 0, 0⟩),
             ("VirtualBox Host-Only", ⟨1024 ^ 2, 1024 ^ 2, 10, 20, 0, 0, 0, 0⟩),
             ("lo", ⟨2 * 1024 ^ 2, 2 * 1024 ^ 2, 30, 30, 0, 0, 0, 0⟩)]
    q_nicPernic := .ok ()
    q_nicTotal := .ok ()
    q_battery := .ok (some ⟨76, false, 5400⟩)
    q_temps := .ok [("coretemp", [⟨"", 45, some 90, some 100⟩]), ("nvme", [])]
    q_fans := .ok [("fan1", [⟨"cpu_fan", 1200⟩])]
    q_pids := .ok 42
    q_statuses1 := .ok ["running", "sleeping", "running"]
    q_statuses2 := .ok ["sleeping", "sleeping", "running"]
    hasGetloadavg := true
    q_loadavg := .ok (3 / 2, 3 / 4, 1 / 2) }

/-- `envAll` with a mounted volume whose reported total size is zero. -/
def envZeroVol : Env :=
  { envAll with
    q_partitions := .ok [⟨"/dev/sda1", "/", "ext4", "rw"⟩,
                         ⟨"/dev/sdc1", "/broken", "ext4", "rw"⟩,
                         ⟨"/dev/sdb1", "/data", "ext4", "rw"⟩]
    q_diskUsage := fun m =>
      if m = "/" then .ok ⟨500 * 1024 ^ 3, 250 * 1024 ^ 3, 250 * 1024 ^ 3⟩
      else if m = "/broken" then .ok ⟨0, 0, 0⟩
      else if m = "/data" then .ok ⟨250 * 1024 ^ 3, 50 * 1024 ^ 3, 200 * 1024 ^ 3⟩
      else .error .permOs }

/-- `envZeroVol` with the battery query additionally raising: every OS
query outside the battery step succeeds. -/
def envMixed : Env :=
  { envZeroVol with q_battery := .error () }

/-- `envAll` with the running-status process enumeration raising. -/
def envProcFail : Env :=
  { envAll with q_statuses1 := .error () }

/-! ## The claims -/

/-- C1 (amended): for every invocation of the worker and every pattern of
raised exceptions in the OS queries of any single collection step `s`,
the run terminates, emits exactly one snapshot via `info_ready`, and
every step other than `s` carries its normal success values — provided
additionally that no enumerated volume reports a zero total size, since
such a volume raises a `ZeroDivisionError` past the storage step's
per-volume handler and degrades the storage step even though none of its
OS queries failed. -/
theorem c1_failure_isolation (env : Env) (s : StepId) (hok : okOutsideA s env) :
    readyList (runWorker env) = [gather_system_info env] ∧
    ∀ t, t ≠ s → stepSpec t env (gather_system_info env) := by
  constructor
  · rfl
  · intro t ht
    exact gather_step_spec env t (hok t (by cases t <;> decide) ht)

/-- C1 counterexample: the claim as stated is false.  In `envMixed` only
the battery step's query raises — every OS query of every other step
succeeds — yet the storage step is degraded to its empty sentinel
(`storage_capabilities = {}` and the remaining volumes dropped), because
a volume reporting a zero total raises `ZeroDivisionError` past the
per-volume handler. -/
theorem c1_counterexample : ¬ claimOneStatement := by
  intro h
  have h2 := (h envMixed .battery (by with_unfolding_all decide)).2 .storage (by decide)
  exact absurd h2 (by with_unfolding_all decide)

/-- C1 witness: the amended theorem at the healthy host `envAll` with the
battery step as the failing one. -/
theorem c1_failure_isolation_witness :
    readyList (runWorker envAll) = [gather_system_info envAll] ∧
    stepSpec .identity envAll (gather_system_info envAll) ∧
    stepSpec .storage envAll (gather_system_info envAll) := by
  have h := c1_failure_isolation envAll .battery (by with_unfolding_all decide)
  exact ⟨h.1, h.2 .identity (by decide), h.2 .storage (by decide)⟩

/-- C2: the percent values emitted on the progress stream of any run are
exactly 5, 10, 20, 30, 45, 60, 70, 80, 85, 90, 95, 100 in that order —
a non-decreasing sequence of values in 0..100 whose final element is
100, each emitted before its step's body executes. -/
theorem c2_progress_sequence (env : Env) :
    percentsOf (runWorker env) = [5, 10, 20, 30, 45, 60, 70, 80, 85, 90, 95, 100] ∧
    List.Chain' (· ≤ ·) (percentsOf (runWorker env)) ∧
    (∀ p ∈ percentsOf (runWorker env), p ≤ 100) ∧
    (percentsOf (runWorker env)).getLast? = some 100 := by
  have h : percentsOf (runWorker env) = [5, 10, 20, 30, 45, 60, 70, 80, 85, 90, 95, 100] := rfl
  rw [h]
  refine ⟨rfl, ?_, by decide, by decide⟩
  norm_num [List.chain'_cons]

/-- C3: evaluation at `envZeroVol`, where every storage query succeeds
but the volume mounted at `/broken` reports a zero total.  The division
error escapes the per-volume handler: the `/data` volume is never
enumerated and the aggregate capability estimate stays the empty
dictionary, contradicting the claim (and the isolation invariant the
spec states). -/
theorem c3_zero_total_aborts_storage :
    (∀ p ∈ exVal [] envZeroVol.q_partitions,
       exOk (envZeroVol.q_diskUsage p.mountpoint) = true) ∧
    (gather_system_info envZeroVol).storage_devices =
      some [⟨"/dev/sda1", "/", "ext4", 500, 250, 250, 50, some ⟨10, 5, 100, 50⟩⟩] ∧
    (gather_system_info envZeroVol).storage_capabilities = some none := by
  refine ⟨by with_unfolding_all decide, ?_, ?_⟩ <;> with_unfolding_all rfl

/-- C4: at 6 GB the memory heuristic returns the `≤ 8 GB` tier (max
64 GB, DDR4, DDR4-3200, 2-4 slots) for every vendor string; at 20 GB it
returns the `≤ 32 GB` tier (max 256 GB, 4-8 slots); the estimated
maximum capacity is a step function with thresholds exactly at
4/8/16/32 GB; and the vendor string can change only the cosmetic
memory-type label. -/
theorem c4_memory_capability_tiers :
    (∀ v, get_memory_capabilities 6 v = ⟨"64 GB", "DDR4", "DDR4-3200", "2-4 slots"⟩) ∧
    (∀ v, (get_memory_capabilities 20 v).max_capacity_gb = "256 GB" ∧
          (get_memory_capabilities 20 v).slots_estimated = "4-8 slots") ∧
    (∀ r v, (r ≤ 4 → (get_memory_capabilities r v).max_capacity_gb = "32 GB") ∧
            (4 < r → r ≤ 8 → (get_memory_capabilities r v).max_capacity_gb = "64 GB") ∧
            (8 < r → r ≤ 16 → (get_memory_capabilities r v).max_capacity_gb = "128 GB") ∧
            (16 < r → r ≤ 32 → (get_memory_capabilities r v).max_capacity_gb = "256 GB") ∧
            (32 < r → (get_memory_capabilities r v).max_capacity_gb = "512+ GB")) ∧
    (∀ r v, (get_memory_capabilities r v).max_capacity_gb =
              (get_memory_capabilities r "").max_capacity_gb ∧
            (get_memory_capabilities r v).max_speed =
              (get_memory_capabilities r "").max_speed ∧
            (get_memory_capabilities r v).slots_estimated =
              (get_memory_capabilities r "").slots_estimated) := by
  refine ⟨?_, ?_, ?_, ?_⟩
  · intro v
    unfold get_memory_capabilities
    dsimp only
    rw [if_neg (by norm_num : ¬ (6 : ℚ) ≤ 4), if_pos (by norm_num : (6 : ℚ) ≤ 8)]
    split_ifs <;> first | rfl | (exfalso; linarith)
  · intro v
    unfold get_memory_capabilities
    dsimp only
    rw [if_neg (by norm_num : ¬ (20 : ℚ) ≤ 4), if_neg (by norm_num : ¬ (20 : ℚ) ≤ 8),
        if_neg (by norm_num : ¬ (20 : ℚ) ≤ 16), if_pos (by norm_num : (20 : ℚ) ≤ 32)]
    split_ifs <;> exact ⟨rfl, rfl⟩
  · intro r v
    refine ⟨fun h1 => ?_, fun h1 h2 => ?_, fun h1 h2 => ?_, fun h1 h2 => ?_, fun h1 => ?_⟩
    · unfold get_memory_capabilities
      dsimp only
      rw [if_pos h1]
      split_ifs <;> rfl
    · unfold get_memory_capabilities
      dsimp only
      rw [if_neg (by linarith : ¬ r ≤ 4), if_pos h2]
      split_ifs <;> rfl
    · unfold get_memory_capabilities
      dsimp only
      rw [if_neg (by linarith : ¬ r ≤ 4), if_neg (by linarith : ¬ r ≤ 8), if_pos h2]
      split_ifs <;> rfl
    · unfold get_memory_capabilities
      dsimp only
      rw [if_neg (by linarith : ¬ r ≤ 4), if_neg (by linarith : ¬ r ≤ 8),
          if_neg (by linarith : ¬ r ≤ 16), if_pos h2]
      split_ifs <;> rfl
    · unfold get_memory_capabilities
      dsimp only
      rw [if_neg (by linarith : ¬ r ≤ 4), if_neg (by linarith : ¬ r ≤ 8),
          if_neg (by linarith : ¬ r ≤ 16), if_neg (by linarith : ¬ r ≤ 32)]
      split_ifs <;> rfl
  · intro r v
    have h1 : containsSub (lowerStr "") "intel" = false := rfl
    have h2 : containsSub (lowerStr "") "amd" = false := rfl
    unfold get_memory_capabilities
    dsimp only
    rw [h1, h2]
    simp only [Bool.false_eq_true, if_false]
    split_ifs <;> exact ⟨rfl, rfl, rfl⟩

/-- C4 witness: the tier theorem instantiated at 6, 5 and 25 GB and two
vendor strings. -/
theorem c4_memory_capability_tiers_witness :
    get_memory_capabilities 6 "GenuineIntel" = ⟨"64 GB", "DDR4", "DDR4-3200", "2-4 slots"⟩ ∧
    (get_memory_capabilities 5 "AuthenticAMD").max_capacity_gb = "64 GB" ∧
    (get_memory_capabilities 25 "GenuineIntel").max_capacity_gb = "256 GB" :=
  ⟨c4_memory_capability_tiers.1 "GenuineIntel",
   (c4_memory_capability_tiers.2.2.1 5 "AuthenticAMD").2.1 (by norm_num) (by norm_num),
   (c4_memory_capability_tiers.2.2.1 25 "GenuineIntel").2.2.2.1 (by norm_num) (by norm_num)⟩

/-- C5: at 750 GB the storage heuristic returns the `≤ 1000 GB` tier
(max 16-32 TB, interface list including PCIe 4.0); at 3000 GB the
`> 2000 GB` tier; and the tier is constant on the bands cut at
500/1000/2000 GB. -/
theorem c5_storage_capability_tiers :
    get_storage_capabilities 750 =
      ⟨"16-32 TB", ["SATA III", "M.2 NVMe", "PCIe 4.0"], "4-6 drives"⟩ ∧
    "PCIe 4.0" ∈ (get_storage_capabilities 750).interface_types ∧
    get_storage_capabilities 3000 =
      ⟨"64+ TB", ["SATA III", "M.2 NVMe", "PCIe 5.0", "U.2", "Enterprise SAS"],
       "8+ drives"⟩ ∧
    (∀ x, (x ≤ 500 → get_storage_capabilities x = get_storage_capabilities 100) ∧
          (500 < x → x ≤ 1000 → get_storage_capabilities x = get_storage_capabilities 750) ∧
          (1000 < x → x ≤ 2000 → get_storage_capabilities x = get_storage_capabilities 1500) ∧
          (2000 < x → get_storage_capabilities x = get_storage_capabilities 3000)) := by
  have h750 : get_storage_capabilities 750 =
      ⟨"16-32 TB", ["SATA III", "M.2 NVMe", "PCIe 4.0"], "4-6 drives"⟩ := by
    unfold get_storage_capabilities
    rw [if_neg (by norm_num : ¬ (750 : ℚ) ≤ 500), if_pos (by norm_num : (750 : ℚ) ≤ 1000)]
  refine ⟨h750, by rw [h750]; decide, ?_, ?_⟩
  · unfold get_storage_capabilities
    rw [if_neg (by norm_num : ¬ (3000 : ℚ) ≤ 500), if_neg (by norm_num : ¬ (3000 : ℚ) ≤ 1000),
        if_neg (by norm_num : ¬ (3000 : ℚ) ≤ 2000)]
  · intro x
    refine ⟨fun h1 => ?_, fun h1 h2 => ?_, fun h1 h2 => ?_, fun h1 => ?_⟩
    · unfold get_storage_capabilities
      rw [if_pos h1, if_pos (by norm_num : (100 : ℚ) ≤ 500)]
    · unfold get_storage_capabilities
      rw [if_neg (by linarith : ¬ x ≤ 500), if_pos h2,
          if_neg (by norm_num : ¬ (750 : ℚ) ≤ 500), if_pos (by norm_num : (750 : ℚ) ≤ 1000)]
    · unfold get_storage_capabilities
      rw [if_neg (by linarith : ¬ x ≤ 500), if_neg (by linarith : ¬ x ≤ 1000), if_pos h2,
          if_neg (by norm_num : ¬ (1500 : ℚ) ≤ 500),
          if_neg (by norm_num : ¬ (1500 : ℚ) ≤ 1000),
          if_pos (by norm_num : (1500 : ℚ) ≤ 2000)]
    · unfold get_storage_capabilities
      rw [if_neg (by linarith : ¬ x ≤ 500), if_neg (by linarith : ¬ x ≤ 1000),
          if_neg (by linarith : ¬ x ≤ 2000),
          if_neg (by norm_num : ¬ (3000 : ℚ) ≤ 500),
          if_neg (by norm_num : ¬ (3000 : ℚ) ≤ 1000),
          if_neg (by norm_num : ¬ (3000 : ℚ) ≤ 2000)]

/-- C5 witness: the tier theorem instantiated at 750 and 2500 GB. -/
theorem c5_storage_capability_tiers_witness :
    get_storage_capabilities 750 =
      ⟨"16-32 TB", ["SATA III", "M.2 NVMe", "PCIe 4.0"], "4-6 drives"⟩ ∧
    get_storage_capabilities 2500 = get_storage_capabilities 3000 :=
  ⟨c5_storage_capability_tiers.1,
   (c5_storage_capability_tiers.2.2.2 2500).2.2.2 (by norm_num)⟩

/-- C6: every interface in the snapshot's list passes the name filter
(not `lo`/`loopback`, no `virtual` substring, case-insensitively) and has
a nonempty collected address list — so filtered names and zero-address
interfaces are excluded — while the global byte/packet aggregate is the
sum over ALL interfaces of the per-interface counter table, not only the
filtered subset. -/
theorem c6_interface_filtering (env : Env) :
    (∀ nif ∈ ((gather_system_info env).network_interfaces).getD [],
       nameExcluded nif.name = false ∧ nif.addresses ≠ []) ∧
    (stepOkQ .network env → env.nics ≠ [] →
       (gather_system_info env).network_stats = some (some (sumNics env.nics))) := by
  constructor
  · intro nif h
    unfold gather_system_info at h
    rw [(stepLoad_keepsC6 env _).1, (stepProcs_keepsC6 env _).1,
        (stepFans_keepsC6 env _).1, (stepThermal_keepsC6 env _).1,
        (stepBattery_keepsC6 env _).1] at h
    exact stepNet_mem env _ nif h
  · intro hok hne
    have h := gather_step_spec env .network ⟨hok, fun hx => absurd hx (by decide)⟩
    have hemp : env.nics.isEmpty = false := by
      cases hnl : env.nics with
      | nil => exact absurd hnl hne
      | cons a l => rfl
    rw [h.2, hemp]
    simp

/-- C6 witness: in `envAll` the interfaces `lo` (loopback),
`VirtualBox Host-Only` (virtual substring) and `wlan0` (no addresses,
link up) are all excluded, `eth0` survives, and the aggregate sums the
counters of all three counter-table entries including the excluded
ones. -/
theorem c6_interface_filtering_witness :
    (gather_system_info envAll).network_stats = some (some (sumNics envAll.nics)) ∧
    nameExcluded "eth0" = false ∧
    ([⟨"IPv4", "192.168.1.5", some "255.255.255.0", none⟩] : List AddrEntry) ≠ [] := by
  have h := c6_interface_filtering envAll
  have h2 := h.1
    ⟨"eth0", true, 1000, 1500, [⟨"IPv4", "192.168.1.5", some "255.255.255.0", none⟩],
     some "aa:bb:cc:dd:ee:ff", some ⟨3, 7, 100, 200, 0, 0, 0, 0⟩⟩
    (by with_unfolding_all decide)
  exact ⟨h.2 (by with_unfolding_all decide) (by decide), h2.1, h2.2⟩

/-- C7: a present battery with a finite `secsleft` of 5400 seconds gets
the remaining-time string `1h 30m`; when `secsleft` is the unlimited
sentinel or not greater than zero, no remaining-time string is
produced. -/
theorem c7_battery_time (env : Env) (i : Info) (b : BatteryData)
    (hb : env.q_battery = .ok (some b)) :
    (b.secsleft = 5400 →
      (stepBattery env i).battery =
        some (some ⟨b.percent, b.power_plugged, some "1h 30m", some 5400⟩)) ∧
    ((b.secsleft = POWER_TIME_UNLIMITED ∨ b.secsleft ≤ 0) →
      (stepBattery env i).battery =
        some (some ⟨b.percent, b.power_plugged, none,
          if b.secsleft ≠ POWER_TIME_UNLIMITED then some b.secsleft else none⟩)) := by
  constructor
  · intro h5
    unfold stepBattery mkBatteryEntry
    rw [hb]
    dsimp only
    rw [h5]
    rw [if_pos (by decide : (5400 : Int) ≠ POWER_TIME_UNLIMITED ∧ (0 : Int) < 5400)]
    rw [if_pos (by decide : (5400 : Int) ≠ POWER_TIME_UNLIMITED)]
    simp only [Option.some.injEq, BatteryEntry.mk.injEq, and_true, true_and]
    decide
  · intro hu
    have hneg : ¬ (b.secsleft ≠ POWER_TIME_UNLIMITED ∧ 0 < b.secsleft) := by
      rcases hu with h | h
      · exact fun hc => hc.1 h
      · exact fun hc => absurd hc.2 (by omega)
    unfold stepBattery mkBatteryEntry
    rw [hb]
    dsimp only
    rw [if_neg hneg]

/-- C7 witness: the formatting theorem at the `envAll` battery
(76 percent, on battery, 5400 seconds left). -/
theorem c7_battery_time_witness :
    (stepBattery envAll Info.empty).battery =
      some (some ⟨76, false, some "1h 30m", some 5400⟩) :=
  (c7_battery_time envAll Info.empty ⟨76, false, 5400⟩ rfl).1 rfl

/-- C8: in `envProcFail` the `psutil.pids()` census succeeds with 42
processes but the running-status enumeration raises; the single `except`
of the process step then resets all three counts to zero, clobbering the
successfully collected total — the successful counts are NOT preserved,
contradicting the claim (and the spec's per-status isolation
requirement). -/
theorem c8_process_census_clobbered :
    exVal 0 envProcFail.q_pids = 42 ∧
    exOk envProcFail.q_statuses1 = false ∧
    (gather_system_info envProcFail).process_count = some 0 ∧
    (gather_system_info envProcFail).process_running = some 0 ∧
    (gather_system_info envProcFail).process_sleeping = some 0 := by
  refine ⟨rfl, rfl, ?_, ?_, ?_⟩ <;> with_unfolding_all rfl

/-- C10: the battery field of the finished snapshot distinguishes the
two absence modes — the key is entirely absent when the query succeeds
reporting no battery, and present with `None` when the query raises —
while a defaulting `dict.get` read (modelled by `Option.join`) collapses
both to `None`. -/
theorem c10_battery_absence (env : Env) :
    (env.q_battery = .ok none → (gather_system_info env).battery = none) ∧
    (env.q_battery = .error () → (gather_system_info env).battery = some none) ∧
    ((env.q_battery = .ok none ∨ env.q_battery = .error ()) →
      ((gather_system_info env).battery).join = none) := by
  have h := gather_battery env
  refine ⟨fun hb => ?_, fun hb => ?_, fun hb => ?_⟩
  · rw [h]; unfold batteryV; rw [hb]
  · rw [h]; unfold batteryV; rw [hb]
  · rcases hb with hb | hb <;> rw [h] <;> unfold batteryV <;> rw [hb] <;> rfl

/-- C10 witness: both absence modes at concrete hosts — `envAll` with a
no-battery report versus `envMixed` whose battery query raises. -/
theorem c10_battery_absence_witness :
    (gather_system_info { envAll with q_battery := .ok none }).battery = none ∧
    (gather_system_info envMixed).battery = some none ∧
    ((gather_system_info { envAll with q_battery := .ok none }).battery).join = none ∧
    ((gather_system_info envMixed).battery).join = none := by
  refine ⟨(c10_battery_absence _).1 rfl, (c10_battery_absence envMixed).2.1 rfl,
          (c10_battery_absence _).2.2 (.inl rfl), (c10_battery_absence envMixed).2.2 (.inr rfl)⟩

/-! ## String facts for the processor-name normalization (claim C9) -/

theorem mem_of_mem_takeWhile (q : Char → Bool) :
    ∀ l : List Char, ∀ c ∈ l.takeWhile q, c ∈ l
  | [] => by simp
  | x :: xs => by
    intro c hc
    simp only [List.takeWhile] at hc
    split at hc
    · rcases List.mem_cons.mp hc with rfl | h2
      · exact List.mem_cons_self _ _
      · exact List.mem_cons_of_mem _ (mem_of_mem_takeWhile q xs c h2)
    · simp at hc

theorem mem_of_mem_dropWhile (q : Char → Bool) :
    ∀ l : List Char, ∀ c ∈ l.dropWhile q, c ∈ l
  | [] => by simp
  | x :: xs => by
    intro c hc
    simp only [List.dropWhile] at hc
    split at hc
    · exact List.mem_cons_of_mem _ (mem_of_mem_dropWhile q xs c hc)
    · exact hc

theorem stripWs_subset (s : String) : ∀ c ∈ (stripWs s).data, c ∈ s.data := by
  intro c hc
  have hc2 : c ∈ ((s.data.dropWhile isWs).reverse.dropWhile isWs).reverse := hc
  rw [List.mem_reverse] at hc2
  have h2 := mem_of_mem_dropWhile isWs _ c hc2
  rw [List.mem_reverse] at h2
  exact mem_of_mem_dropWhile isWs _ c h2

theorem removeList_subset (p : Char) (ps : List Char) (l : List Char) :
    ∀ c ∈ removeList p ps l, c ∈ l := by
  induction l using removeList.induct p ps with
  | case1 => simp [removeList]
  | case2 c cs h ih =>
    intro d hd
    unfold removeList at hd
    rw [if_pos h] at hd
    exact List.mem_cons_of_mem _ (List.drop_subset _ _ (ih d hd))
  | case3 c cs h ih =>
    intro d hd
    unfold removeList at hd
    rw [if_neg h] at hd
    rcases List.mem_cons.mp hd with rfl | hd2
    · exact List.mem_cons_self _ _
    · exact List.mem_cons_of_mem _ (ih d hd2)

theorem removeList_id (p : Char) (ps : List Char) :
    ∀ l : List Char, p ∉ l → removeList p ps l = l
  | [] => fun _ => by simp [removeList]
  | c :: cs => fun h => by
    have hpc : p ≠ c := fun he => h (he ▸ List.mem_cons_self c cs)
    unfold removeList
    rw [if_neg (by simp [leadsList, hpc])]
    rw [removeList_id p ps cs (fun hm => h (List.mem_cons_of_mem _ hm))]

theorem wordsOf_no_ws : ∀ l : List Char, ∀ w ∈ wordsOf l, ∀ c ∈ w, isWs c = false := by
  intro l
  induction l using wordsOf.induct with
  | case1 => simp [wordsOf]
  | case2 c cs hws ih =>
    intro w hw d hd
    unfold wordsOf at hw
    rw [if_pos hws] at hw
    exact ih w hw d hd
  | case3 c cs hws ih =>
    intro w hw d hd
    unfold wordsOf at hw
    rw [if_neg hws] at hw
    rcases List.mem_cons.mp hw with rfl | hw2
    · rcases List.mem_cons.mp hd with rfl | hd2
      · simpa using hws
      · simpa using List.mem_takeWhile_imp hd2
    · exact ih w hw2 d hd

theorem wordsOf_subset : ∀ l : List Char, ∀ w ∈ wordsOf l, ∀ c ∈ w, c ∈ l := by
  intro l
  induction l using wordsOf.induct with
  | case1 => simp [wordsOf]
  | case2 c cs hws ih =>
    intro w hw d hd
    unfold wordsOf at hw
    rw [if_pos hws] at hw
    exact List.mem_cons_of_mem _ (ih w hw d hd)
  | case3 c cs hws ih =>
    intro w hw d hd
    unfold wordsOf at hw
    rw [if_neg hws] at hw
    rcases List.mem_cons.mp hw with rfl | hw2
    · rcases List.mem_cons.mp hd with rfl | hd2
      · exact List.mem_cons_self _ _
      · exact List.mem_cons_of_mem _ (mem_of_mem_takeWhile _ cs d hd2)
    · exact List.mem_cons_of_mem _ (mem_of_mem_dropWhile _ cs d (ih w hw2 d hd))

theorem joinWords_space : ∀ ws : List (List Char),
    (∀ w ∈ ws, ∀ c ∈ w, isWs c = false) → ∀ c ∈ joinWords ws, isWs c = true → c = ' '
  | [] => by intro _ c hc; simp [joinWords] at hc
  | [w] => by
    intro h c hc hw
    simp only [joinWords] at hc
    exact absurd hw (by simp [h w (by simp) c hc])
  | w :: w2 :: ws => by
    intro h c hc hw
    unfold joinWords at hc
    rcases List.mem_append.mp hc with h1 | h2
    · exact absurd hw (by simp [h w (List.mem_cons_self _ _) c h1])
    · rcases List.mem_cons.mp h2 with rfl | h3
      · rfl
      · exact joinWords_space (w2 :: ws)
          (fun u hu => h u (List.mem_cons_of_mem _ hu)) c h3 hw

theorem joinWords_subset : ∀ ws : List (List Char), ∀ c ∈ joinWords ws,
    c = ' ' ∨ ∃ w, w ∈ ws ∧ c ∈ w
  | [] => by intro c hc; simp [joinWords] at hc
  | [w] => by
    intro c hc
    simp only [joinWords] at hc
    exact Or.inr ⟨w, by simp, hc⟩
  | w :: w2 :: ws => by
    intro c hc
    unfold joinWords at hc
    rcases List.mem_append.mp hc with h1 | h2
    · exact Or.inr ⟨w, List.mem_cons_self _ _, h1⟩
    · rcases List.mem_cons.mp h2 with rfl | h3
      · exact Or.inl rfl
      · rcases joinWords_subset (w2 :: ws) c h3 with h | ⟨u, hu, hcu⟩
        · exact Or.inl h
        · exact Or.inr ⟨u, List.mem_cons_of_mem _ hu, hcu⟩

theorem collapseWs_space (s : String) :
    ∀ c ∈ (collapseWs s).data, isWs c = true → c = ' ' :=
  fun c hc => joinWords_space (wordsOf s.data) (wordsOf_no_ws s.data) c hc

theorem collapseWs_subset (s : String) :
    ∀ c ∈ (collapseWs s).data, c = ' ' ∨ c ∈ s.data := by
  intro c hc
  rcases joinWords_subset (wordsOf s.data) c hc with h | ⟨w, hw, hcw⟩
  · exact Or.inl h
  · exact Or.inr (wordsOf_subset s.data w hw c hcw)

theorem leadsList_mem (p : Char) (ps : List Char) :
    ∀ l : List Char, leadsList (p :: ps) l = true → p ∈ l
  | [] => by simp [leadsList]
  | c :: cs => by
    intro h
    unfold leadsList at h
    simp only [Bool.and_eq_true] at h
    have : p = c := by simpa using h.1
    exact this ▸ List.mem_cons_self _ _

theorem containsList_mem (p : Char) (ps : List Char) :
    ∀ l : List Char, containsList (p :: ps) l = true → p ∈ l
  | [] => by simp [containsList, leadsList]
  | c :: cs => by
    intro h
    unfold containsList at h
    simp only [Bool.or_eq_true] at h
    rcases h with h1 | h2
    · exact leadsList_mem p ps _ h1
    · exact List.mem_cons_of_mem _ (containsList_mem p ps cs h2)

theorem normalizeProc_subset (s : String) :
    ∀ c ∈ (normalizeProc s).data, c ∈ (collapseWs s).data := by
  intro c hc
  have h1 := stripWs_subset
    (removeAll "(tm)" (removeAll "(TM)" (removeAll "(R)" (collapseWs s)))) c hc
  have h2 := removeList_subset '(' ['t', 'm', ')']
    ((removeAll "(TM)" (removeAll "(R)" (collapseWs s))).data) c h1
  have h3 := removeList_subset '(' ['T', 'M', ')']
    ((removeAll "(R)" (collapseWs s)).data) c h2
  exact removeList_subset '(' ['R', ')'] ((collapseWs s).data) c h3

/-- C9 counterexample: the claim as stated is false.  On the raw string
`Intel (R) (r) Core` the normalized name is `Intel  (r) Core`: deleting
the space-flanked `(R)` marker leaves a double space (whitespace runs
are NOT all single spaces), and the lowercase marker `(r)` — the
lower-case form of `(R)` — survives (markers are NOT stripped in any
case). -/
theorem c9_counterexample :
    normalizeProc "Intel (R) (r) Core" = "Intel  (r) Core" ∧
    containsSub (normalizeProc "Intel (R) (r) Core") "  " = true ∧
    containsSub (lowerStr (normalizeProc "Intel (R) (r) Core")) "(r)" = true ∧
    lowerStr "(R)" = "(r)" := by
  refine ⟨by with_unfolding_all rfl, ?_, ?_, by with_unfolding_all rfl⟩ <;>
    with_unfolding_all decide

/-- C9 (amended): normalization first collapses whitespace runs, then
deletes the exact-case markers `(R)`, `(TM)`, `(tm)` in one
left-to-right pass each, then trims; consequently every whitespace
character of the normalized name is a plain space, and for raw strings
containing no parenthesis the normalized name is exactly the
whitespace-collapsed (trimmed) input and contains no parenthesised
marker of any casing.  Markers in other casings (such as `(r)`), and
double spaces left where a space-flanked marker was deleted, can occur
in general, as the counterexample shows. -/
theorem c9_normalize_amended (s : String) :
    (∀ c ∈ (normalizeProc s).data, isWs c = true → c = ' ') ∧
    ('(' ∉ s.data →
      normalizeProc s = stripWs (collapseWs s) ∧
      ∀ pat : String, pat.data.head? = some '(' →
        containsSub (normalizeProc s) pat = false) := by
  constructor
  · intro c hc hw
    exact collapseWs_space s c (normalizeProc_subset s c hc) hw
  · intro hp
    have hpc : '(' ∉ (collapseWs s).data := by
      intro hm
      rcases collapseWs_subset s '(' hm with h | h
      · exact absurd h (by decide)
      · exact hp h
    have e1 : removeAll "(R)" (collapseWs s) = collapseWs s := by
      show (⟨removeList '(' ['R', ')'] (collapseWs s).data⟩ : String) = collapseWs s
      rw [removeList_id '(' ['R', ')'] (collapseWs s).data hpc]
    have e2 : removeAll "(TM)" (collapseWs s) = collapseWs s := by
      show (⟨removeList '(' ['T', 'M', ')'] (collapseWs s).data⟩ : String) = collapseWs s
      rw [removeList_id '(' ['T', 'M', ')'] (collapseWs s).data hpc]
    have e3 : removeAll "(tm)" (collapseWs s) = collapseWs s := by
      show (⟨removeList '(' ['t', 'm', ')'] (collapseWs s).data⟩ : String) = collapseWs s
      rw [removeList_id '(' ['t', 'm', ')'] (collapseWs s).data hpc]
    have hid : normalizeProc s = stripWs (collapseWs s) := by
      unfold normalizeProc
      rw [e1, e2, e3]
    refine ⟨hid, ?_⟩
    intro pat hpat
    cases hd : pat.data with
    | nil => rw [hd] at hpat; simp at hpat
    | cons p rest =>
      rw [hd] at hpat
      simp only [List.head?_cons, Option.some.injEq] at hpat
      subst hpat
      by_contra hcon
      have htrue : containsList ('(' :: rest) (normalizeProc s).data = true := by
        have : containsSub (normalizeProc s) pat = containsList ('(' :: rest)
            (normalizeProc s).data := by
          unfold containsSub
          rw [hd]
        cases h2 : containsList ('(' :: rest) (normalizeProc s).data with
        | true => rfl
        | false => exact absurd (this.trans h2) hcon
      have hm := containsList_mem '(' rest _ htrue
      rcases collapseWs_subset s '(' (normalizeProc_subset s '(' hm) with h | h
      · exact absurd h (by decide)
      · exact hp h

/-- C9 witness: the amended theorem at the paren-free raw string
`AMD Ryzen  7<tab>5800X`. -/
theorem c9_normalize_amended_witness :
    (∀ c ∈ (normalizeProc "AMD Ryzen  7\t5800X").data, isWs c = true → c = ' ') ∧
    normalizeProc "AMD Ryzen  7\t5800X" = stripWs (collapseWs "AMD Ryzen  7\t5800X") ∧
    containsSub (normalizeProc "AMD Ryzen  7\t5800X") "(r)" = false := by
  have h := c9_normalize_amended "AMD Ryzen  7\t5800X"
  have h2 := h.2 (by decide)
  exact ⟨h.1, h2.1, h2.2 "(r)" (by decide)⟩
